import Mathlib

/-!
Shallow embedding of the BlueZ monitor ATT dissector (`src/monitor/att.c`) and
proofs about it.

Conventions of the embedding:
* A PDU byte is a `Nat` (values < 256 by construction of the inputs).
* The presentation sink (`print_field`, `print_text`, `packet_hexdump`,
  `print_hex_field`, `print_indent`, `packet_print_codec_id`) is the external
  collaborator of spec section 6; its calls are modelled as structured `Event`s.
  Format strings are kept verbatim, numeric arguments are kept, purely textual
  renderings (string tables for codes) are dropped as presentation.
* C undefined behaviour that necessarily stops the process (calling a NULL or
  wild function pointer, dereferencing a NULL struct pointer, reading a struct
  past the end of a table) is modelled as a terminal `Event.ub` ending the
  trace.  An out-of-bounds *dump* of raw bytes (memory is read past the frame
  but control flow continues) is modelled by the non-terminal
  `Event.oobHexField`, which records the bytes that were available and the
  length the code asked for.
* Helper code of the repository that lives outside `src/` (the frame cursor of
  `monitor/l2cap.h`, `packet_print_ltv`, `print_bitfield`, the generic queue of
  `src/shared/queue.c`, the gatt-db lookup) is modelled from the spec; each
  such definition carries a doc comment starting with `Modelled from the
  spec:`.
-/

/-- One field-emission event delivered to the presentation sink. -/
inductive Event where
  /-- The `print_indent(6, color, "ATT: ", str, ...)` opcode header line of
  `att_packet`: opcode byte, opcode name, payload length. -/
  | attLine (opcode : Nat) (name : String) (plen : Nat)
  /-- A `print_field(fmt, args...)` call: format string plus numeric args. -/
  | field (fmt : String) (args : List Nat)
  /-- A `print_text(COLOR_ERROR, msg)` call. -/
  | err (msg : String)
  /-- A `print_text(COLOR_WHITE_BG, fmt, args...)` call (unknown bitfield
  masks). -/
  | warn (fmt : String) (args : List Nat)
  /-- A `packet_hexdump(data, size)` call. -/
  | hexdump (bytes : List Nat)
  /-- A `print_hex_field(label, data, len)` call with `len` within the frame:
  the dumped bytes. -/
  | hexField (label : String) (bytes : List Nat)
  /-- A `print_hex_field(label, data, len)` call asking for more bytes than
  the frame holds: the available bytes and the requested length.  The read
  runs past the PDU buffer. -/
  | oobHexField (label : String) (avail : List Nat) (want : Nat)
  /-- Output of `print_attribute`: handle and (16-bit) type of the resolved
  attribute.  The textual UUID rendering is presentation. -/
  | attrLine (handle : Nat) (tp : Option Nat)
  /-- A `packet_print_codec_id(label, id)` call. -/
  | codecId (label : String) (id : Nat)
  /-- Undefined behaviour that stops the process: the message names the
  violation.  Terminal: nothing in the trace follows it. -/
  | ub (msg : String)
  deriving Repr, DecidableEq

/-- True when the trace ended in undefined behaviour. -/
def crashed (evs : List Event) : Bool :=
  evs.any fun e => match e with | .ub _ => true | _ => false

/-- The little-endian value of a list of bytes (least significant first). -/
def leVal : List Nat → Nat
  | [] => 0
  | b :: rest => b + 256 * leVal rest

/-- The part of `struct l2cap_frame` the dissector uses: the inbound flag
`frame->in` (named `din` because `in` is reserved), the logical channel
`frame->chan`, and the remaining bytes `frame->data` (so `frame->size` is
`data.length`).  The ACL handle field is implicit: the embedding models a
single logical connection, so `packet_get_conn_data(frame->handle)` becomes a
lookup in the ambient `World` (below). -/
structure L2capFrame where
  din : Bool
  chan : Nat
  data : List Nat
  deriving Repr, DecidableEq

namespace L2capFrame

/-- Embedding of `frame->size`. -/
def size (f : L2capFrame) : Nat := f.data.length

end L2capFrame

/-- Modelled from the spec: `l2cap_frame_pull` (monitor/l2cap.h, outside
`src/`), per section 4.1 FrameCursor: pulling `len` bytes either succeeds,
returning the pulled bytes and the advanced cursor, or fails leaving the
cursor unchanged. -/
def l2cap_frame_pull (f : L2capFrame) (len : Nat) :
    Option (List Nat × L2capFrame) :=
  if f.data.length < len then none
  else some (f.data.take len, { f with data := f.data.drop len })

/-- Modelled from the spec: `l2cap_frame_get_u8` (monitor/l2cap.h, outside
`src/`), section 4.1: read one byte or fail without side effects. -/
def l2cap_frame_get_u8 (f : L2capFrame) : Option (Nat × L2capFrame) :=
  match f.data with
  | [] => none
  | b :: rest => some (b, { f with data := rest })

/-- Modelled from the spec: `l2cap_frame_get_le16` (monitor/l2cap.h, outside
`src/`), section 4.1: read a 2-byte little-endian integer or fail without
side effects. -/
def l2cap_frame_get_le16 (f : L2capFrame) : Option (Nat × L2capFrame) :=
  match f.data with
  | a :: b :: rest => some (leVal [a, b], { f with data := rest })
  | _ => none

/-- Modelled from the spec: `l2cap_frame_get_le24` (monitor/l2cap.h, outside
`src/`), section 4.1. -/
def l2cap_frame_get_le24 (f : L2capFrame) : Option (Nat × L2capFrame) :=
  match f.data with
  | a :: b :: c :: rest => some (leVal [a, b, c], { f with data := rest })
  | _ => none

/-- Modelled from the spec: `l2cap_frame_get_le32` (monitor/l2cap.h, outside
`src/`), section 4.1. -/
def l2cap_frame_get_le32 (f : L2capFrame) : Option (Nat × L2capFrame) :=
  match f.data with
  | a :: b :: c :: d :: rest => some (leVal [a, b, c, d], { f with data := rest })
  | _ => none

/-- Modelled from the spec: `l2cap_frame_print_u8` (monitor/l2cap.h, outside
`src/`): read one byte and print it under `label`, or print an invalid-size
error.  Returns the events, the advanced cursor and the success flag. -/
def l2cap_frame_print_u8 (f : L2capFrame) (label : String) :
    List Event × L2capFrame × Bool :=
  match l2cap_frame_get_u8 f with
  | none => ([.err (label ++ ": invalid size")], f, false)
  | some (v, f') => ([.field (label ++ ": %u") [v]], f', true)

/-- A `print_hex_field(label, frame->data, len)` call: in bounds it dumps the
first `len` remaining bytes; past the end of the frame the read leaves the
PDU buffer, recorded as `oobHexField`. -/
def printHexField (label : String) (bytes : List Nat) (len : Nat) : Event :=
  if len ≤ bytes.length then .hexField label (bytes.take len)
  else .oobHexField label bytes len

/-- Modelled from the spec: `print_bitfield` (monitor/packet.h, outside
`src/`), section 4.8 BitfieldDecoder: for each table entry whose bit is set in
`val`, emit its label and clear the bit from a working copy; return the
events and the residual mask. -/
def print_bitfield (val : Nat) (table : List (Nat × String)) :
    List Event × Nat :=
  table.foldl
    (fun (acc : List Event × Nat) ent =>
      if val.testBit ent.1 then
        (acc.1 ++ [.field ent.2 []], acc.2 - (acc.2 &&& (1 <<< ent.1)))
      else acc)
    ([], val)

/-- The trailing `if (frame->size) print_hex_field(label, frame->data,
frame->size);` idiom at the `done:` label of many decoders. -/
def doneDump (label : String) (f : L2capFrame) : List Event :=
  if f.data.isEmpty then [] else [printHexField label f.data f.data.length]

/-- Embedding of `ccc_value_table` (src/monitor/att.c). -/
def ccc_value_table : List (Nat × String) :=
  [(0, "Notification (0x01)"), (1, "Indication (0x02)")]

/-- Embedding of `pac_context_table` (src/monitor/att.c). -/
def pac_context_table : List (Nat × String) :=
  [(0, "Unspecified (0x0001)"), (1, "Conversational (0x0002)"),
   (2, "Media (0x0004)"), (3, "Game (0x0008)"), (4, "Instructional (0x0010)"),
   (5, "Voice Assistants (0x0020)"), (6, "Live (0x0040)"),
   (7, "Sound Effects (0x0080)"), (8, "Notifications (0x0100)"),
   (9, "Ringtone (0x0200)"), (10, "Alerts (0x0400)"),
   (11, "Emergency alarm (0x0800)"), (12, "RFU (0x1000)"),
   (13, "RFU (0x2000)"), (14, "RFU (0x4000)"), (15, "RFU (0x8000)")]

/-- Embedding of `pac_freq_table` (src/monitor/att.c). -/
def pac_freq_table : List (Nat × String) :=
  [(0, "8 Khz (0x0001)"), (1, "11.25 Khz (0x0002)"), (2, "16 Khz (0x0004)"),
   (3, "22.05 Khz (0x0008)"), (4, "24 Khz (0x0010)"), (5, "32 Khz (0x0020)"),
   (6, "44.1 Khz (0x0040)"), (7, "48 Khz (0x0080)"), (8, "88.2 Khz (0x0100)"),
   (9, "96 Khz (0x0200)"), (10, "176.4 Khz (0x0400)"),
   (11, "192 Khz (0x0800)"), (12, "384 Khz (0x1000)"), (13, "RFU (0x2000)"),
   (14, "RFU (0x4000)"), (15, "RFU (0x8000)")]

/-- Embedding of `pac_duration_table` (src/monitor/att.c). -/
def pac_duration_table : List (Nat × String) :=
  [(0, "7.5 ms (0x01)"), (1, "10 ms (0x02)"), (2, "RFU (0x04)"),
   (3, "RFU (0x08)"), (4, "7.5 ms preferred (0x10)"),
   (5, "10 ms preferred (0x20)"), (6, "RFU (0x40)"), (7, "RFU (0x80)")]

/-- Embedding of `pac_channel_table` (src/monitor/att.c). -/
def pac_channel_table : List (Nat × String) :=
  [(0, "1 channel (0x01)"), (1, "2 channels (0x02)"), (2, "3 channels (0x04)"),
   (3, "4 chanenls (0x08)"), (4, "5 channels (0x10)"), (5, "6 channels (0x20)"),
   (6, "7 channels (0x40)"), (7, "8 channels (0x80)")]

/-- Embedding of `prefer_phy_table` (src/monitor/att.c). -/
def prefer_phy_table : List (Nat × String) :=
  [(0, "LE 1M PHY preffered (0x01)"), (1, "LE 2M PHY preffered (0x02)"),
   (2, "LE Codec PHY preffered (0x04)")]

/-- Embedding of `phy_table` (src/monitor/att.c). -/
def phy_table : List (Nat × String) :=
  [(0, "LE 1M PHY (0x01)"), (1, "LE 2M PHY (0x02)"), (2, "LE Codec PHY (0x04)")]

/-- Embedding of `channel_location_table` (src/monitor/att.c). -/
def channel_location_table : List (Nat × String) :=
  [(0, "Front Left (0x00000001)"), (1, "Front Right (0x00000002)"),
   (2, "Front Center (0x00000004)"),
   (3, "Low Frequency Effects 1 (0x00000008)"), (4, "Back Left (0x00000010)"),
   (5, "Back Right (0x00000020)"), (6, "Front Left of Center (0x00000040)"),
   (7, "Front Right of Center (0x00000080)"), (8, "Back Center (0x00000100)"),
   (9, "Low Frequency Effects 2 (0x00000200)"), (10, "Side Left (0x00000400)"),
   (11, "Side Right (0x00000800)"), (12, "Top Front Left (0x00001000)"),
   (13, "Top Front Right (0x00002000)"), (14, "Top Front Center (0x00004000)"),
   (15, "Top Center (0x00008000)"), (16, "Top Back Left (0x00010000)"),
   (17, "Top Back Right (0x00020000)"), (18, "Top Side Left (0x00040000)"),
   (19, "Top Side Right (0x00080000)"), (20, "Top Back Center (0x00100000)"),
   (21, "Bottom Front Center (0x00200000)"),
   (22, "Bottom Front Left (0x00400000)"),
   (23, "Bottom Front Right (0x00800000)"),
   (24, "Front Left Wide (0x01000000)"), (25, "Front Right Wide (0x02000000)"),
   (26, "Left Surround (0x04000000)"), (27, "Right Surround (0x08000000)"),
   (28, "RFU (0x10000000)"), (29, "RFU (0x20000000)"),
   (30, "RFU (0x40000000)"), (31, "RFU (0x80000000)")]

/-- Modelled from the spec: the TLV/LTV engine `packet_print_ltv` /
`util_ltv_foreach` (monitor/packet.c and src/shared/util.c, outside `src/`),
section 4.3: read a length byte, pull exactly that many bytes as the record
(fail means truncation: stop and dump the remaining cursor bytes); the first
record byte is the tag, looked up in the table; a found tag's decoder runs on
the value bytes, an unknown tag's value is raw-dumped; continue until the
enclosing length is exhausted. -/
def ltv_records (table : List (Nat × (List Nat → List Event))) :
    List Nat → List Event
  | [] => []
  | l :: rest =>
    if rest.length < l then
      [.err "invalid size", .hexdump (l :: rest)]
    else
      (match rest.take l with
        | [] => []
        | tag :: value =>
          match table.find? (fun ent => ent.1 == tag) with
          | some ent => ent.2 value
          | none => [.hexdump (tag :: value)]) ++
      ltv_records table (rest.drop l)
termination_by bs => bs.length
decreasing_by
  simp only [List.length_cons, List.length_drop]
  omega

/-- Modelled from the spec: `packet_print_ltv(label, data, len, decoder, n)`
(monitor/packet.c, outside `src/`): announce the label, then run the LTV
record loop of section 4.3 over the bytes. -/
def packet_print_ltv (label : String) (bytes : List Nat)
    (table : List (Nat × (List Nat → List Event))) : List Event :=
  .field (label ++ ": %u bytes") [bytes.length] :: ltv_records table bytes

/-- Embedding of `print_ccc_value` (src/monitor/att.c). -/
def print_ccc_value (f : L2capFrame) : List Event :=
  match l2cap_frame_get_u8 f with
  | none => [.err "invalid size"]
  | some (value, _) =>
    let (bevs, mask) := print_bitfield value ccc_value_table
    bevs ++ (if mask ≠ 0 then [.warn "    Unknown fields (0x%2.2x)" [mask]] else [])

/-- Embedding of `ccc_read` (src/monitor/att.c). -/
def ccc_read (f : L2capFrame) : List Event := print_ccc_value f

/-- Embedding of `ccc_write` (src/monitor/att.c). -/
def ccc_write (f : L2capFrame) : List Event := print_ccc_value f

/-- Embedding of `print_ase_codec` (src/monitor/att.c): codec id byte, company and vendor
ids; company/vendor fields only printed for vendor codec 0xff. -/
def print_ase_codec (f : L2capFrame) : List Event × L2capFrame × Bool :=
  match l2cap_frame_get_u8 f with
  | none => ([.err "Codec: invalid size"], f, false)
  | some (codec_id, f1) =>
    let e0 : Event := .codecId "    Codec" codec_id
    match l2cap_frame_get_le16 f1 with
    | none => ([e0, .err "Codec Company ID: invalid size"], f1, false)
    | some (codec_cid, f2) =>
      match l2cap_frame_get_le16 f2 with
      | none => ([e0, .err "Codec Vendor ID: invalid size"], f2, false)
      | some (codec_vid, f3) =>
        let evs :=
          if codec_id == 0xff then
            [e0, .field "    Codec Company ID: %s (0x%04x)" [codec_cid],
             .field "    Codec Vendor ID: 0x%04x" [codec_vid]]
          else [e0]
        (evs, f3, true)

/-- Embedding of `print_ase_lv` (src/monitor/att.c): pull the 1-byte length header of a
`bt_hci_lv_data`, pull that many bytes, hand them to the LTV engine. -/
def print_ase_lv (f : L2capFrame) (label : String)
    (table : List (Nat × (List Nat → List Event))) :
    List Event × L2capFrame × Bool :=
  match l2cap_frame_pull f 1 with
  | none => ([.err (label ++ ": invalid size")], f, false)
  | some (hdr, f1) =>
    let len := hdr.headD 0
    match l2cap_frame_pull f1 len with
    | none => ([.err (label ++ ": invalid size")], f1, false)
    | some (value, f2) =>
      (packet_print_ltv label value table, f2, true)

/-- Embedding of `print_ase_cc` (src/monitor/att.c). -/
def print_ase_cc (f : L2capFrame) (label : String)
    (table : List (Nat × (List Nat → List Event))) :
    List Event × L2capFrame × Bool :=
  print_ase_lv f label table

/-- Embedding of `print_ase_metadata` (src/monitor/att.c): metadata LTV block decoded with
a NULL decoder table (every tag raw-dumps). -/
def print_ase_metadata (f : L2capFrame) : List Event × L2capFrame × Bool :=
  print_ase_lv f "    Metadata" []

/-- Embedding of `print_context` (src/monitor/att.c). -/
def print_context (f : L2capFrame) (label : String) : List Event :=
  match l2cap_frame_get_le16 f with
  | none => [.err "    value: invalid size"] ++ doneDump "    Data" f
  | some (value, f1) =>
    let (bevs, mask) := print_bitfield value pac_context_table
    [.field (label ++ ": 0x%4.4x") [value]] ++ bevs ++
    (if mask ≠ 0 then [.warn "    Unknown fields (0x%4.4x)" [mask]] else []) ++
    doneDump "    Data" f1

/-- Embedding of `print_location` (src/monitor/att.c). -/
def print_location (f : L2capFrame) : List Event :=
  match l2cap_frame_get_le32 f with
  | none => [.err "    value: invalid size"] ++ doneDump "  Data" f
  | some (value, f1) =>
    let (bevs, mask) := print_bitfield value channel_location_table
    [.field "   Location: 0x%8.8x" [value]] ++ bevs ++
    (if mask ≠ 0 then [.warn "    Unknown fields (0x%8.8x)" [mask]] else []) ++
    doneDump "  Data" f1

/-- Embedding of `ase_decode_freq` (src/monitor/att.c); the sampling-frequency name table
is presentation, the value is kept. -/
def ase_decode_freq (bytes : List Nat) : List Event :=
  let f : L2capFrame := ⟨false, 0, bytes⟩
  match l2cap_frame_get_u8 f with
  | none => [.err "    value: invalid size"] ++ doneDump "    Data" f
  | some (value, f1) =>
    [.field "      Sampling Frequency" [value]] ++ doneDump "    Data" f1

/-- Embedding of `ase_decode_duration` (src/monitor/att.c). -/
def ase_decode_duration (bytes : List Nat) : List Event :=
  let f : L2capFrame := ⟨false, 0, bytes⟩
  match l2cap_frame_get_u8 f with
  | none => [.err "    value: invalid size"] ++ doneDump "    Data" f
  | some (value, f1) =>
    [.field "      Frame Duration" [value]] ++ doneDump "    Data" f1

/-- Embedding of `ase_decode_location` (src/monitor/att.c). -/
def ase_decode_location (bytes : List Nat) : List Event :=
  print_location ⟨false, 0, bytes⟩

/-- Embedding of `ase_decode_frame_length` (src/monitor/att.c). -/
def ase_decode_frame_length (bytes : List Nat) : List Event :=
  let f : L2capFrame := ⟨false, 0, bytes⟩
  match l2cap_frame_get_le16 f with
  | none => [.err "    value: invalid size"] ++ doneDump "    Data" f
  | some (value, f1) =>
    [.field "      Frame Length: %u (0x%4.4x)" [value, value]] ++
    doneDump "    Data" f1

/-- Embedding of `ase_decode_blocks` (src/monitor/att.c). -/
def ase_decode_blocks (bytes : List Nat) : List Event :=
  let f : L2capFrame := ⟨false, 0, bytes⟩
  match l2cap_frame_get_u8 f with
  | none => [.err "    value: invalid size"] ++ doneDump "    Data" f
  | some (value, f1) =>
    [.field "      Frame Blocks per SDU: %u (0x%2.2x)" [value, value]] ++
    doneDump "    Data" f1

/-- Embedding of `ase_cc_table` (src/monitor/att.c): codec-configuration LTV tags. -/
def ase_cc_table : List (Nat × (List Nat → List Event)) :=
  [(0x01, ase_decode_freq), (0x02, ase_decode_duration),
   (0x03, ase_decode_location), (0x04, ase_decode_frame_length),
   (0x05, ase_decode_blocks)]

/-- Embedding of `pac_decode_freq` (src/monitor/att.c). -/
def pac_decode_freq (bytes : List Nat) : List Event :=
  let f : L2capFrame := ⟨false, 0, bytes⟩
  match l2cap_frame_get_le16 f with
  | none => [.err "    value: invalid size"] ++ doneDump "    Data" f
  | some (value, f1) =>
    let (bevs, mask) := print_bitfield value pac_freq_table
    [.field "      Sampling Frequencies: 0x%4.4x" [value]] ++ bevs ++
    (if mask ≠ 0 then [.warn "    Unknown fields (0x%4.4x)" [mask]] else []) ++
    doneDump "    Data" f1

/-- Embedding of `pac_decode_duration` (src/monitor/att.c). -/
def pac_decode_duration (bytes : List Nat) : List Event :=
  let f : L2capFrame := ⟨false, 0, bytes⟩
  match l2cap_frame_get_u8 f with
  | none => [.err "    value: invalid size"] ++ doneDump "    Data" f
  | some (value, f1) =>
    let (bevs, mask) := print_bitfield value pac_duration_table
    [.field "      Frame Duration: 0x%4.4x" [value]] ++ bevs ++
    (if mask ≠ 0 then [.warn "    Unknown fields (0x%2.2x)" [mask]] else []) ++
    doneDump "    Data" f1

/-- Embedding of `pac_decode_channels` (src/monitor/att.c). -/
def pac_decode_channels (bytes : List Nat) : List Event :=
  let f : L2capFrame := ⟨false, 0, bytes⟩
  match l2cap_frame_get_u8 f with
  | none => [.err "    value: invalid size"] ++ doneDump "    Data" f
  | some (value, f1) =>
    let (bevs, mask) := print_bitfield value pac_channel_table
    [.field "      Audio Channel Count: 0x%2.2x" [value]] ++ bevs ++
    (if mask ≠ 0 then [.warn "    Unknown fields (0x%2.2x)" [mask]] else []) ++
    doneDump "    Data" f1

/-- Embedding of `pac_decode_frame_length` (src/monitor/att.c). -/
def pac_decode_frame_length (bytes : List Nat) : List Event :=
  let f : L2capFrame := ⟨false, 0, bytes⟩
  match l2cap_frame_get_le16 f with
  | none => [.err "    min: invalid size"] ++ doneDump "    Data" f
  | some (mn, f1) =>
    match l2cap_frame_get_le16 f1 with
    | none => [.err "    min: invalid size"] ++ doneDump "    Data" f1
    | some (mx, f2) =>
      [.field "      Frame Length: %u (0x%4.4x) - %u (0x%4.4x)"
        [mn, mn, mx, mx]] ++ doneDump "    Data" f2

/-- Embedding of `pac_decode_sdu` (src/monitor/att.c). -/
def pac_decode_sdu (bytes : List Nat) : List Event :=
  let f : L2capFrame := ⟨false, 0, bytes⟩
  match l2cap_frame_get_u8 f with
  | none => [.err "    value: invalid size"] ++ doneDump "    Data" f
  | some (value, f1) =>
    [.field "      Max SDU: %u (0x%2.2x)" [value, value]] ++
    doneDump "    Data" f1

/-- Embedding of `pac_cap_table` (src/monitor/att.c): PAC capability LTV tags. -/
def pac_cap_table : List (Nat × (List Nat → List Event)) :=
  [(0x01, pac_decode_freq), (0x02, pac_decode_duration),
   (0x03, pac_decode_channels), (0x04, pac_decode_frame_length),
   (0x05, pac_decode_sdu)]

/-- The `for (i = 0; i < num; i++)` body of `print_pac` (src/monitor/att.c):
codec, codec-specific capabilities, metadata per PAC record; a failing step
ends the loop. -/
def print_pac_loop : Nat → Nat → L2capFrame → List Event × L2capFrame
  | 0, _, f => ([], f)
  | n + 1, i, f =>
    let hdr : Event := .field "  PAC #%u:" [i]
    match print_ase_codec f with
    | (evs, f1, false) => (hdr :: evs, f1)
    | (evs, f1, true) =>
      match print_ase_cc f1 "    Codec Specific Capabilities" pac_cap_table with
      | (evs2, f2, false) => (hdr :: (evs ++ evs2), f2)
      | (evs2, f2, true) =>
        match print_ase_metadata f2 with
        | (evs3, f3, false) => (hdr :: (evs ++ evs2 ++ evs3), f3)
        | (evs3, f3, true) =>
          let (evs4, f4) := print_pac_loop n (i + 1) f3
          (hdr :: (evs ++ evs2 ++ evs3 ++ evs4), f4)

/-- Embedding of `print_pac` (src/monitor/att.c). -/
def print_pac (f : L2capFrame) : List Event :=
  match l2cap_frame_get_u8 f with
  | none => [.err "Number of PAC(s): invalid size"] ++ doneDump "  Data" f
  | some (num, f1) =>
    let (evs, f2) := print_pac_loop num 0 f1
    [.field "  Number of PAC(s): %u" [num]] ++ evs ++ doneDump "  Data" f2

/-- Embedding of `pac_read` (src/monitor/att.c). -/
def pac_read (f : L2capFrame) : List Event := print_pac f

/-- Embedding of `pac_notify` (src/monitor/att.c). -/
def pac_notify (f : L2capFrame) : List Event := print_pac f

/-- Embedding of `print_prefer_framing` (src/monitor/att.c); the framing name table is
presentation. -/
def print_prefer_framing (f : L2capFrame) : List Event × L2capFrame × Bool :=
  match l2cap_frame_get_u8 f with
  | none => ([.err "    Framing: invalid size"], f, false)
  | some (framing, f1) => ([.field "    Framing" [framing]], f1, true)

/-- Embedding of `print_prefer_phy` (src/monitor/att.c). -/
def print_prefer_phy (f : L2capFrame) : List Event × L2capFrame × Bool :=
  match l2cap_frame_get_u8 f with
  | none => ([.err "PHY: invalid size"], f, false)
  | some (phy, f1) =>
    let (bevs, mask) := print_bitfield phy prefer_phy_table
    ([.field "    PHY: 0x%2.2x" [phy]] ++ bevs ++
     (if mask ≠ 0 then [.warn "    Unknown fields (0x%2.2x)" [mask]] else []),
     f1, true)

/-- Embedding of `print_ase_rtn` (src/monitor/att.c). -/
def print_ase_rtn (f : L2capFrame) (label : String) :
    List Event × L2capFrame × Bool :=
  match l2cap_frame_get_u8 f with
  | none => ([.err (label ++ ": invalid size")], f, false)
  | some (rtn, f1) => ([.field (label ++ ": %u") [rtn]], f1, true)

/-- Embedding of `print_ase_latency` (src/monitor/att.c). -/
def print_ase_latency (f : L2capFrame) (label : String) :
    List Event × L2capFrame × Bool :=
  match l2cap_frame_get_le16 f with
  | none => ([.err (label ++ ": invalid size")], f, false)
  | some (latency, f1) => ([.field (label ++ ": %u") [latency]], f1, true)

/-- Embedding of `print_ase_pd` (src/monitor/att.c). -/
def print_ase_pd (f : L2capFrame) (label : String) :
    List Event × L2capFrame × Bool :=
  match l2cap_frame_get_le24 f with
  | none => ([.err (label ++ ": invalid size")], f, false)
  | some (pd, f1) => ([.field (label ++ ": %u us") [pd]], f1, true)

/-- Embedding of `print_ase_framing` (src/monitor/att.c); framed/unframed name table is
presentation. -/
def print_ase_framing (f : L2capFrame) (label : String) :
    List Event × L2capFrame × Bool :=
  match l2cap_frame_get_u8 f with
  | none => ([.err (label ++ ": invalid size")], f, false)
  | some (framing, f1) => ([.field label [framing]], f1, true)

/-- Embedding of `print_ase_phy` (src/monitor/att.c). -/
def print_ase_phy (f : L2capFrame) (label : String) :
    List Event × L2capFrame × Bool :=
  match l2cap_frame_get_u8 f with
  | none => ([.err (label ++ ": invalid size")], f, false)
  | some (phy, f1) =>
    let (bevs, mask) := print_bitfield phy phy_table
    ([.field (label ++ ": 0x%2.2x") [phy]] ++ bevs ++
     (if mask ≠ 0 then [.warn "    Unknown fields (0x%2.2x)" [mask]] else []),
     f1, true)

/-- Embedding of `print_ase_interval` (src/monitor/att.c). -/
def print_ase_interval (f : L2capFrame) (label : String) :
    List Event × L2capFrame × Bool :=
  match l2cap_frame_get_le24 f with
  | none => ([.err (label ++ ": invalid size")], f, false)
  | some (iv, f1) => ([.field (label ++ ": %u usec") [iv]], f1, true)

/-- Embedding of `print_ase_sdu` (src/monitor/att.c). -/
def print_ase_sdu (f : L2capFrame) (label : String) :
    List Event × L2capFrame × Bool :=
  match l2cap_frame_get_le16 f with
  | none => ([.err (label ++ ": invalid size")], f, false)
  | some (sdu, f1) => ([.field (label ++ ": %u") [sdu]], f1, true)

/-- Embedding of `print_ase_config` (src/monitor/att.c): preferred framing, PHY, RTN,
latency, four presentation delays, codec, codec-specific configuration; each
failing step returns. -/
def print_ase_config (f : L2capFrame) : List Event × L2capFrame :=
  match print_prefer_framing f with
  | (e1, f1, false) => (e1, f1)
  | (e1, f1, true) =>
  match print_prefer_phy f1 with
  | (e2, f2, false) => (e1 ++ e2, f2)
  | (e2, f2, true) =>
  match print_ase_rtn f2 "    RTN" with
  | (e3, f3, false) => (e1 ++ e2 ++ e3, f3)
  | (e3, f3, true) =>
  match print_ase_latency f3 "    Max Transport Latency" with
  | (e4, f4, false) => (e1 ++ e2 ++ e3 ++ e4, f4)
  | (e4, f4, true) =>
  match print_ase_pd f4 "    Presentation Delay Min" with
  | (e5, f5, false) => (e1 ++ e2 ++ e3 ++ e4 ++ e5, f5)
  | (e5, f5, true) =>
  match print_ase_pd f5 "    Presentation Delay Max" with
  | (e6, f6, false) => (e1 ++ e2 ++ e3 ++ e4 ++ e5 ++ e6, f6)
  | (e6, f6, true) =>
  match print_ase_pd f6 "    Preferred Presentation Delay Min" with
  | (e7, f7, false) => (e1 ++ e2 ++ e3 ++ e4 ++ e5 ++ e6 ++ e7, f7)
  | (e7, f7, true) =>
  match print_ase_pd f7 "    Preferred Presentation Delay Max" with
  | (e8, f8, false) => (e1 ++ e2 ++ e3 ++ e4 ++ e5 ++ e6 ++ e7 ++ e8, f8)
  | (e8, f8, true) =>
  match print_ase_codec f8 with
  | (e9, f9, false) => (e1 ++ e2 ++ e3 ++ e4 ++ e5 ++ e6 ++ e7 ++ e8 ++ e9, f9)
  | (e9, f9, true) =>
    let (e10, f10, _) :=
      print_ase_cc f9 "    Codec Specific Configuration" ase_cc_table
    (e1 ++ e2 ++ e3 ++ e4 ++ e5 ++ e6 ++ e7 ++ e8 ++ e9 ++ e10, f10)

/-- Embedding of `print_ase_qos` (src/monitor/att.c). -/
def print_ase_qos (f : L2capFrame) : List Event × L2capFrame :=
  match l2cap_frame_print_u8 f "    CIG ID" with
  | (e1, f1, false) => (e1, f1)
  | (e1, f1, true) =>
  match l2cap_frame_print_u8 f1 "    CIS ID" with
  | (e2, f2, false) => (e1 ++ e2, f2)
  | (e2, f2, true) =>
  match print_ase_interval f2 "    SDU Interval" with
  | (e3, f3, false) => (e1 ++ e2 ++ e3, f3)
  | (e3, f3, true) =>
  match print_ase_framing f3 "    Framing" with
  | (e4, f4, false) => (e1 ++ e2 ++ e3 ++ e4, f4)
  | (e4, f4, true) =>
  match print_ase_phy f4 "    PHY" with
  | (e5, f5, false) => (e1 ++ e2 ++ e3 ++ e4 ++ e5, f5)
  | (e5, f5, true) =>
  match print_ase_sdu f5 "    Max SDU" with
  | (e6, f6, false) => (e1 ++ e2 ++ e3 ++ e4 ++ e5 ++ e6, f6)
  | (e6, f6, true) =>
  match print_ase_rtn f6 "    RTN" with
  | (e7, f7, false) => (e1 ++ e2 ++ e3 ++ e4 ++ e5 ++ e6 ++ e7, f7)
  | (e7, f7, true) =>
  match print_ase_latency f7 "    Max Transport Latency" with
  | (e8, f8, false) => (e1 ++ e2 ++ e3 ++ e4 ++ e5 ++ e6 ++ e7 ++ e8, f8)
  | (e8, f8, true) =>
    let (e9, f9, _) := print_ase_pd f8 "    Presentation Delay"
    (e1 ++ e2 ++ e3 ++ e4 ++ e5 ++ e6 ++ e7 ++ e8 ++ e9, f9)

/-- Embedding of `print_ase_metadata_status` (src/monitor/att.c). -/
def print_ase_metadata_status (f : L2capFrame) : List Event × L2capFrame :=
  match l2cap_frame_print_u8 f "    CIG ID" with
  | (e1, f1, false) => (e1, f1)
  | (e1, f1, true) =>
  match l2cap_frame_print_u8 f1 "    CIS ID" with
  | (e2, f2, false) => (e1 ++ e2, f2)
  | (e2, f2, true) =>
    let (e3, f3, _) := print_ase_metadata f2
    (e1 ++ e2 ++ e3, f3)

/-- Embedding of `print_ase_status` (src/monitor/att.c): ASE id, state byte, then the
state-specific payload; an unrecognized state is reported Reserved and
payload decoding stops; the remainder is dumped at `done:`. -/
def print_ase_status (f : L2capFrame) : List Event :=
  match l2cap_frame_get_u8 f with
  | none => [.err "ASE ID: invalid size"] ++ doneDump "  Data" f
  | some (id, f1) =>
    let e0 : Event := .field "    ASE ID: %u" [id]
    match l2cap_frame_get_u8 f1 with
    | none => [e0, .err "ASE State: invalid size"] ++ doneDump "  Data" f1
    | some (state, f2) =>
      let (evs, f3) :=
        match state with
        | 0x00 => ([Event.field "    State: Idle (0x00)" []], f2)
        | 0x01 =>
          let (es, fx) := print_ase_config f2
          (Event.field "    State: Codec Configured (0x01)" [] :: es, fx)
        | 0x02 =>
          let (es, fx) := print_ase_qos f2
          (Event.field "    State: QoS Configured (0x02)" [] :: es, fx)
        | 0x03 =>
          let (es, fx) := print_ase_metadata_status f2
          (Event.field "    State: Enabling (0x03)" [] :: es, fx)
        | 0x04 =>
          let (es, fx) := print_ase_metadata_status f2
          (Event.field "    State: Streaming (0x04)" [] :: es, fx)
        | 0x05 =>
          let (es, fx) := print_ase_metadata_status f2
          (Event.field "    State: Disabling (0x05)" [] :: es, fx)
        | 0x06 => ([Event.field "    State: Releasing (0x06)" []], f2)
        | s => ([Event.field "    State: Reserved (0x%2.2x)" [s]], f2)
      [e0] ++ evs ++ doneDump "  Data" f3

/-- Embedding of `ase_read` (src/monitor/att.c). -/
def ase_read (f : L2capFrame) : List Event := print_ase_status f

/-- Embedding of `ase_notify` (src/monitor/att.c). -/
def ase_notify (f : L2capFrame) : List Event := print_ase_status f

/-- Embedding of `print_pac_context` (src/monitor/att.c). -/
def print_pac_context (f : L2capFrame) : List Event :=
  match l2cap_frame_get_le16 f with
  | none => [.err "  sink: invalid size"] ++ doneDump "  Data" f
  | some (snk, f1) =>
    let (bevs, mask) := print_bitfield snk pac_context_table
    let sinkEvs := [Event.field "  Sink Context: 0x%4.4x" [snk]] ++ bevs ++
      (if mask ≠ 0 then [Event.warn "  Unknown fields (0x%4.4x)" [mask]] else [])
    match l2cap_frame_get_le16 f1 with
    | none => sinkEvs ++ [.err "  source: invalid size"] ++ doneDump "  Data" f1
    | some (src, f2) =>
      let (bevs2, mask2) := print_bitfield src pac_context_table
      sinkEvs ++ [Event.field "  Source Context: 0x%4.4x" [src]] ++ bevs2 ++
      (if mask2 ≠ 0 then [Event.warn "  Unknown fields (0x%4.4x)" [mask2]]
       else []) ++ doneDump "  Data" f2

/-- Embedding of `pac_loc_read` (src/monitor/att.c). -/
def pac_loc_read (f : L2capFrame) : List Event := print_location f

/-- Embedding of `pac_loc_notify` (src/monitor/att.c). -/
def pac_loc_notify (f : L2capFrame) : List Event := print_location f

/-- Embedding of `pac_context_read` (src/monitor/att.c). -/
def pac_context_read (f : L2capFrame) : List Event := print_pac_context f

/-- Embedding of `pac_context_notify` (src/monitor/att.c). -/
def pac_context_notify (f : L2capFrame) : List Event := print_pac_context f

/-- Embedding of `print_ase_target_latency` (src/monitor/att.c); the latency name table is
presentation. -/
def print_ase_target_latency (f : L2capFrame) :
    List Event × L2capFrame × Bool :=
  match l2cap_frame_get_u8 f with
  | none => ([.err "    Target Latency: invalid size"], f, false)
  | some (latency, f1) => ([.field "    Target Latency" [latency]], f1, true)

/-- Embedding of `ase_config_cmd` (src/monitor/att.c). -/
def ase_config_cmd (f : L2capFrame) : List Event × L2capFrame × Bool :=
  match l2cap_frame_print_u8 f "    ASE ID" with
  | (e1, f1, false) => (e1, f1, false)
  | (e1, f1, true) =>
  match print_ase_target_latency f1 with
  | (e2, f2, false) => (e1 ++ e2, f2, false)
  | (e2, f2, true) =>
  match print_ase_phy f2 "    PHY" with
  | (e3, f3, false) => (e1 ++ e2 ++ e3, f3, false)
  | (e3, f3, true) =>
  match print_ase_codec f3 with
  | (e4, f4, false) => (e1 ++ e2 ++ e3 ++ e4, f4, false)
  | (e4, f4, true) =>
  match print_ase_cc f4 "    Codec Specific Configuration" ase_cc_table with
  | (e5, f5, false) => (e1 ++ e2 ++ e3 ++ e4 ++ e5, f5, false)
  | (e5, f5, true) => (e1 ++ e2 ++ e3 ++ e4 ++ e5, f5, true)

/-- Embedding of `ase_qos_cmd` (src/monitor/att.c). -/
def ase_qos_cmd (f : L2capFrame) : List Event × L2capFrame × Bool :=
  match l2cap_frame_print_u8 f "    ASE ID" with
  | (e1, f1, false) => (e1, f1, false)
  | (e1, f1, true) =>
  match l2cap_frame_print_u8 f1 "    CIG ID" with
  | (e2, f2, false) => (e1 ++ e2, f2, false)
  | (e2, f2, true) =>
  match l2cap_frame_print_u8 f2 "    CIS ID" with
  | (e3, f3, false) => (e1 ++ e2 ++ e3, f3, false)
  | (e3, f3, true) =>
  match print_ase_interval f3 "    SDU Interval" with
  | (e4, f4, false) => (e1 ++ e2 ++ e3 ++ e4, f4, false)
  | (e4, f4, true) =>
  match print_ase_framing f4 "    Framing" with
  | (e5, f5, false) => (e1 ++ e2 ++ e3 ++ e4 ++ e5, f5, false)
  | (e5, f5, true) =>
  match print_ase_phy f5 "    PHY" with
  | (e6, f6, false) => (e1 ++ e2 ++ e3 ++ e4 ++ e5 ++ e6, f6, false)
  | (e6, f6, true) =>
  match print_ase_sdu f6 "    Max SDU" with
  | (e7, f7, false) => (e1 ++ e2 ++ e3 ++ e4 ++ e5 ++ e6 ++ e7, f7, false)
  | (e7, f7, true) =>
  match print_ase_rtn f7 "    RTN" with
  | (e8, f8, false) => (e1 ++ e2 ++ e3 ++ e4 ++ e5 ++ e6 ++ e7 ++ e8, f8, false)
  | (e8, f8, true) =>
  match print_ase_latency f8 "    Max Transport Latency" with
  | (e9, f9, false) =>
    (e1 ++ e2 ++ e3 ++ e4 ++ e5 ++ e6 ++ e7 ++ e8 ++ e9, f9, false)
  | (e9, f9, true) =>
  match print_ase_pd f9 "    Presentation Delay" with
  | (e10, f10, ok) =>
    (e1 ++ e2 ++ e3 ++ e4 ++ e5 ++ e6 ++ e7 ++ e8 ++ e9 ++ e10, f10, ok)

/-- Embedding of `ase_enable_cmd` (src/monitor/att.c). -/
def ase_enable_cmd (f : L2capFrame) : List Event × L2capFrame × Bool :=
  match l2cap_frame_print_u8 f "    ASE ID" with
  | (e1, f1, false) => (e1, f1, false)
  | (e1, f1, true) =>
    match print_ase_metadata f1 with
    | (e2, f2, ok) => (e1 ++ e2, f2, ok)

/-- Embedding of `ase_start_cmd` (src/monitor/att.c). -/
def ase_start_cmd (f : L2capFrame) : List Event × L2capFrame × Bool :=
  l2cap_frame_print_u8 f "    ASE ID"

/-- Embedding of `ase_disable_cmd` (src/monitor/att.c). -/
def ase_disable_cmd (f : L2capFrame) : List Event × L2capFrame × Bool :=
  l2cap_frame_print_u8 f "    ASE ID"

/-- Embedding of `ase_stop_cmd` (src/monitor/att.c). -/
def ase_stop_cmd (f : L2capFrame) : List Event × L2capFrame × Bool :=
  l2cap_frame_print_u8 f "    ASE ID"

/-- Embedding of `ase_metadata_cmd` (src/monitor/att.c). -/
def ase_metadata_cmd (f : L2capFrame) : List Event × L2capFrame × Bool :=
  match l2cap_frame_print_u8 f "    ASE ID" with
  | (e1, f1, false) => (e1, f1, false)
  | (e1, f1, true) =>
    match print_ase_metadata f1 with
    | (e2, f2, ok) => (e1 ++ e2, f2, ok)

/-- Embedding of `ase_release_cmd` (src/monitor/att.c). -/
def ase_release_cmd (f : L2capFrame) : List Event × L2capFrame × Bool :=
  l2cap_frame_print_u8 f "    ASE ID"

/-- One entry of `ase_cmd_table`: the description string and per-ASE decode
function; `none` models the NULL fields of the zero-initialized entry at
index 0. -/
structure AseCmd where
  desc : Option String
  func : Option (L2capFrame → List Event × L2capFrame × Bool)

/-- Embedding of `ase_cmd_table` (src/monitor/att.c): designated initializers at indices
0x01..0x08 of a 9-element array; index 0 is the zero-initialized hole. -/
def ase_cmd_table : List AseCmd :=
  [⟨none, none⟩,
   ⟨some "Codec Configuration", some ase_config_cmd⟩,
   ⟨some "QoS Configuration", some ase_qos_cmd⟩,
   ⟨some "Enable", some ase_enable_cmd⟩,
   ⟨some "Receiver Start Ready", some ase_start_cmd⟩,
   ⟨some "Disable", some ase_disable_cmd⟩,
   ⟨some "Receiver Stop Ready", some ase_stop_cmd⟩,
   ⟨some "Update Metadata", some ase_metadata_cmd⟩,
   ⟨some "Release", some ase_release_cmd⟩]

/-- Embedding of `ase_get_cmd` (src/monitor/att.c): returns NULL for `op >
ARRAY_SIZE(ase_cmd_table)`, otherwise the address `&ase_cmd_table[op]`,
modelled as the index.  Note the guard is `>`, not `>=`: the index equal to
the table length passes the guard even though it is one past the end. -/
def ase_get_cmd (op : Nat) : Option Nat :=
  if op > ase_cmd_table.length then none else some op

/-- The `for (i = 0; i < num && frame->size; i++)` loop of `print_ase_cmd`
(src/monitor/att.c): print the entry header, run the per-ASE decode function,
stop when it fails. -/
def ase_cmd_loop (fn : L2capFrame → List Event × L2capFrame × Bool) :
    Nat → Nat → L2capFrame → List Event × L2capFrame
  | 0, _, f => ([], f)
  | n + 1, i, f =>
    if f.data.isEmpty then ([], f)
    else
      let hdr : Event := .field "    ASE: #%u" [i]
      match fn f with
      | (evs, f1, false) => (hdr :: evs, f1)
      | (evs, f1, true) =>
        let (evs2, f2) := ase_cmd_loop fn n (i + 1) f1
        (hdr :: (evs ++ evs2), f2)

/-- Embedding of `print_ase_cmd` (src/monitor/att.c).  `ase_get_cmd` can hand back the
one-past-the-end index 9 (see `ase_get_cmd`); dereferencing it reads past the
table, modelled as `Event.ub`.  The index-0 entry has NULL `desc` and NULL
`func`: its description prints as garbage (dropped as presentation) and the
first loop iteration calls the NULL function pointer. -/
def print_ase_cmd (f : L2capFrame) : List Event :=
  match l2cap_frame_get_u8 f with
  | none => [.err "opcode: invalid size"] ++ doneDump "  Data" f
  | some (op, f1) =>
  match l2cap_frame_get_u8 f1 with
  | none => [.err "num: invalid size"] ++ doneDump "  Data" f1
  | some (num, f2) =>
  match ase_get_cmd op with
  | none => [.field "    Opcode: Reserved (0x%2.2x)" [op]] ++ doneDump "  Data" f2
  | some idx =>
  match ase_cmd_table.get? idx with
  | none => [.ub "read past the end of ase_cmd_table"]
  | some cmd =>
    let e1 : Event := .field "    Opcode: %s (0x%2.2x)" [op]
    let e2 : Event := .field "    Number of ASE(s): %u" [num]
    match cmd.func with
    | some fn =>
      let (levs, f3) := ase_cmd_loop fn num 0 f2
      [e1, e2] ++ levs ++ doneDump "  Data" f3
    | none =>
      if num = 0 ∨ f2.data.isEmpty then [e1, e2] ++ doneDump "  Data" f2
      else [e1, e2, .field "    ASE: #%u" [0],
            .ub "call through NULL ase_cmd func"]

/-- Embedding of `ase_cp_write` (src/monitor/att.c). -/
def ase_cp_write (f : L2capFrame) : List Event := print_ase_cmd f

/-- Embedding of `print_ase_cp_rsp_code` (src/monitor/att.c); the response-code string
table is presentation. -/
def print_ase_cp_rsp_code (f : L2capFrame) : List Event × L2capFrame × Bool :=
  match l2cap_frame_get_u8 f with
  | none => ([.err "    ASE Response Code: invalid size"], f, false)
  | some (code, f1) => ([.field "    ASE Response Code" [code]], f1, true)

/-- Embedding of `print_ase_cp_rsp_reason` (src/monitor/att.c); the reason string table is
presentation. -/
def print_ase_cp_rsp_reason (f : L2capFrame) :
    List Event × L2capFrame × Bool :=
  match l2cap_frame_get_u8 f with
  | none => ([.err "    ASE Response Reason: invalid size"], f, false)
  | some (reason, f1) => ([.field "    ASE Response Reason" [reason]], f1, true)

/-- The per-ASE loop of `print_ase_cp_rsp` (src/monitor/att.c): ASE id,
response code, response reason per entry. -/
def ase_cp_rsp_loop : Nat → Nat → L2capFrame → List Event × L2capFrame
  | 0, _, f => ([], f)
  | n + 1, i, f =>
    if f.data.isEmpty then ([], f)
    else
      let hdr : Event := .field "    ASE: #%u" [i]
      match l2cap_frame_print_u8 f "    ASE ID" with
      | (e1, f1, false) => (hdr :: e1, f1)
      | (e1, f1, true) =>
      match print_ase_cp_rsp_code f1 with
      | (e2, f2, false) => (hdr :: (e1 ++ e2), f2)
      | (e2, f2, true) =>
      match print_ase_cp_rsp_reason f2 with
      | (e3, f3, false) => (hdr :: (e1 ++ e2 ++ e3), f3)
      | (e3, f3, true) =>
        let (e4, f4) := ase_cp_rsp_loop n (i + 1) f3
        (hdr :: (e1 ++ e2 ++ e3 ++ e4), f4)

/-- Embedding of `print_ase_cp_rsp` (src/monitor/att.c).  Shares `ase_get_cmd` and hence
the same one-past-the-end dereference at opcode 9. -/
def print_ase_cp_rsp (f : L2capFrame) : List Event :=
  match l2cap_frame_get_u8 f with
  | none => [.err "    opcode: invalid size"] ++ doneDump "  Data" f
  | some (op, f1) =>
  match l2cap_frame_get_u8 f1 with
  | none => [.err "    Number of ASE(s): invalid size"] ++ doneDump "  Data" f1
  | some (num, f2) =>
  match ase_get_cmd op with
  | none => [.field "    Opcode: Reserved (0x%2.2x)" [op]] ++ doneDump "  Data" f2
  | some idx =>
  match ase_cmd_table.get? idx with
  | none => [.ub "read past the end of ase_cmd_table"]
  | some _ =>
    let e1 : Event := .field "    Opcode: %s (0x%2.2x)" [op]
    let e2 : Event := .field "    Number of ASE(s): %u" [num]
    let (levs, f3) := ase_cp_rsp_loop num 0 f2
    [e1, e2] ++ levs ++ doneDump "  Data" f3

/-- Embedding of `ase_cp_notify` (src/monitor/att.c). -/
def ase_cp_notify (f : L2capFrame) : List Event := print_ase_cp_rsp f

/-- A GATT attribute as the dissector sees it: its handle and its 16-bit type
UUID.  Attribute types of other widths never match the (all 16-bit)
`gatt_handlers` table, so they are modelled as `none`. -/
structure Attr where
  handle : Nat
  type16 : Option Nat
  deriving Repr, DecidableEq

/-- An attribute database; `struct gatt_db` of the external storage
collaborator. -/
def GattDb := List Attr
deriving instance Repr, DecidableEq for GattDb

/-- Modelled from the spec: the database collaborator's `lookup(db, handle)`
(section 6): the attribute stored at `handle`, if any. -/
def gatt_db_get_attribute (db : GattDb) (handle : Nat) : Option Attr :=
  List.find? (fun a => a.handle == handle) db

/-- Modelled from the spec: the database collaborator's `is_empty(db)`
(section 6). -/
def gatt_db_isempty (db : GattDb) : Bool := List.isEmpty db

/-- One entry of `gatt_handlers` (src/monitor/att.c): UUID16 plus optional
read/write/notify value decoders. -/
structure GattHandler where
  uuid : Nat
  read : Option (L2capFrame → List Event)
  write : Option (L2capFrame → List Event)
  notify : Option (L2capFrame → List Event)

/-- Embedding of `gatt_handlers` (src/monitor/att.c). -/
def gatt_handlers : List GattHandler :=
  [⟨0x2902, some ccc_read, some ccc_write, none⟩,
   ⟨0x2bc4, some ase_read, none, some ase_notify⟩,
   ⟨0x2bc5, some ase_read, none, some ase_notify⟩,
   ⟨0x2bc6, none, some ase_cp_write, some ase_cp_notify⟩,
   ⟨0x2bc9, some pac_read, none, some pac_notify⟩,
   ⟨0x2bca, some pac_loc_read, none, some pac_loc_notify⟩,
   ⟨0x2bcb, some pac_read, none, some pac_notify⟩,
   ⟨0x2bcc, some pac_loc_read, none, some pac_loc_notify⟩,
   ⟨0x2bcd, some pac_context_read, none, some pac_context_notify⟩,
   ⟨0x2bce, some pac_context_read, none, some pac_context_notify⟩]

/-- Embedding of `get_handler` (src/monitor/att.c): first `gatt_handlers` entry whose
UUID16 equals the attribute's type (`bt_uuid_cmp` exact match; attributes
whose type is not a 16-bit UUID match no entry). -/
def get_handler (attr : Attr) : Option GattHandler :=
  match attr.type16 with
  | none => none
  | some u => gatt_handlers.find? (fun h => h.uuid == u)

/-- Embedding of `struct att_read` (src/monitor/att.c): one pending read request awaiting
its response: resolved attribute, request direction `in`, channel, and the
read decoder to run on the response. -/
structure AttRead where
  attr : Attr
  din : Bool
  chan : Nat
  func : L2capFrame → List Event

/-- Embedding of `struct att_conn_data` (src/monitor/att.c): local and remote attribute
databases and the pending-read queue.  The C field `reads` is a NULL pointer
until the first push; the generic queue treats a NULL queue as empty, so both
states are modelled as `[]`. -/
structure AttConnData where
  ldb : GattDb
  rdb : GattDb
  reads : List AttRead

/-- Embedding of `struct packet_conn_data` as the dissector uses it: the att-owned
`conn->data` slot, NULL until `load_gatt_db` first runs for the
connection. -/
structure PacketConnData where
  data : Option AttConnData

/-- The ambient state: the connection-registry entry for the (single
modelled) connection, plus the persisted databases that
`btd_settings_gatt_db_load` would read from disk for the local and remote
side. -/
structure World where
  conn : Option PacketConnData
  ldisk : GattDb
  rdisk : GattDb

/-- Modelled from the spec: `packet_get_conn_data(frame->handle)`
(monitor/packet.c, outside `src/`): the registry entry for the frame's
connection, or NULL if the transport layer tracks none. -/
def packet_get_conn_data (w : World) : Option PacketConnData := w.conn

/-- Embedding of `load_gatt_db` (src/monitor/att.c): create `conn->data` if absent, then
lazily populate whichever database is still empty from persisted state
(`w.ldisk` and `w.rdisk` stand for the two settings files). -/
def load_gatt_db (w : World) (conn : PacketConnData) : PacketConnData :=
  let d : AttConnData :=
    match conn.data with
    | none => ⟨[], [], []⟩
    | some d => d
  if ¬gatt_db_isempty d.ldb ∧ ¬gatt_db_isempty d.rdb then
    { conn with data := some d }
  else
    let d1 := if gatt_db_isempty d.ldb then { d with ldb := w.ldisk } else d
    let d2 := if gatt_db_isempty d1.rdb then { d1 with rdb := w.rdisk } else d1
    { conn with data := some d2 }

/-- Embedding of `get_attribute` (src/monitor/att.c): resolve a handle against one of the
two per-connection databases chosen from the frame direction and the
response-side flag; updates the world because `load_gatt_db` lazily creates
and populates the databases. -/
def get_attribute (f : L2capFrame) (handle : Nat) (rsp : Bool) (w : World) :
    Option Attr × World :=
  match packet_get_conn_data w with
  | none => (none, w)
  | some conn =>
    let conn' := load_gatt_db w conn
    let w' : World := { w with conn := some conn' }
    match conn'.data with
    | none => (none, w')
    | some d =>
      let db :=
        if f.din then (if rsp then d.rdb else d.ldb)
        else (if rsp then d.ldb else d.rdb)
      (gatt_db_get_attribute db handle, w')

/-- Embedding of `print_attribute` (src/monitor/att.c): handle plus type (textual UUID
rendering is presentation). -/
def print_attribute (a : Attr) : Event := .attrLine a.handle a.type16

/-- Embedding of `print_handle` (src/monitor/att.c): resolve and print the attribute, or
fall back to the bare handle. -/
def print_handle (f : L2capFrame) (handle : Nat) (rsp : Bool) (w : World) :
    List Event × World :=
  let (attr, w') := get_attribute f handle rsp w
  match attr with
  | none => ([.field "Handle: 0x%4.4x" [handle]], w')
  | some a => ([print_attribute a], w')

/-- Embedding of `match_read_frame` (src/monitor/att.c): a pending read matches a
response frame only in the opposite direction and on the same channel. -/
def match_read_frame (read : AttRead) (f : L2capFrame) : Bool :=
  if read.din == f.din then false
  else read.chan == f.chan

/-- Modelled from the spec: `queue_remove_if` (src/shared/queue.c, outside
`src/`), sections 4.5 and 9: scan the FIFO from the head and remove the
first (oldest) entry matching the predicate; return it (or none) and the
remaining queue. -/
def queue_remove_if {α : Type} (q : List α) (p : α → Bool) :
    Option α × List α :=
  match q with
  | [] => (none, [])
  | x :: xs =>
    if p x then (some x, xs)
    else
      let (r, xs') := queue_remove_if xs p
      (r, x :: xs')

/-- Embedding of `att_read_req` (src/monitor/att.c): print the target, and when the
attribute resolves to a registry entry with a read decoder, push an
`att_read` onto the connection's pending-read queue. -/
def att_read_req (f : L2capFrame) (w : World) : List Event × World :=
  match f.data with
  | h0 :: h1 :: rest =>
    let handle := leVal [h0, h1]
    let f1 : L2capFrame := { f with data := rest }
    let (evs, w1) := print_handle f1 handle false w
    let (attr, w2) := get_attribute f1 handle false w1
    match attr with
    | none => (evs, w2)
    | some a =>
      match get_handler a with
      | none => (evs, w2)
      | some h =>
        match h.read with
        | none => (evs, w2)
        | some readFn =>
          match w2.conn with
          | none => (evs ++ [.ub "NULL dereference: conn in att_read_req"], w2)
          | some conn =>
            match conn.data with
            | none =>
              (evs ++ [.ub "NULL dereference: conn->data in att_read_req"], w2)
            | some d =>
              let read : AttRead := ⟨a, f.din, f.chan, readFn⟩
              let d2 : AttConnData := { d with reads := d.reads ++ [read] }
              let conn2 : PacketConnData := { conn with data := some d2 }
              (evs, { w2 with conn := some conn2 })
  | _ => ([.ub "read past the frame in att_read_req"], w)

/-- Embedding of `att_read_rsp` (src/monitor/att.c): dump the value, then consume the
oldest matching pending read, if any, printing its attribute and running its
read decoder on the response.  Note the code checks `conn` for NULL but not
`conn->data`: with no per-connection ATT state yet, `data->reads`
dereferences NULL. -/
def att_read_rsp (f : L2capFrame) (w : World) : List Event × World :=
  let e0 : Event := printHexField "Value" f.data f.data.length
  match packet_get_conn_data w with
  | none => ([e0], w)
  | some conn =>
    match conn.data with
    | none => ([e0, .ub "NULL dereference: conn->data in att_read_rsp"], w)
    | some d =>
      match queue_remove_if d.reads (fun r => match_read_frame r f) with
      | (none, _) => ([e0], w)
      | (some read, rest) =>
        let d2 : AttConnData := { d with reads := rest }
        let conn2 : PacketConnData := { conn with data := some d2 }
        ([e0, print_attribute read.attr] ++ read.func f,
         { w with conn := some conn2 })

/-- Embedding of `print_write` (src/monitor/att.c): print the target and a dump of the
remaining bytes, validate `len`, resolve the attribute and registry entry,
then call `handler->write` — note without checking it for NULL (unlike
`att_read_req`'s `!handler || !handler->read`): entries without a write
decoder make the call go through a NULL function pointer. -/
def print_write (f : L2capFrame) (handle : Nat) (len : Nat) (w : World) :
    List Event × World :=
  let (e0, w1) := print_handle f handle false w
  let e1 : Event := printHexField "  Data" f.data f.data.length
  if len > f.data.length then (e0 ++ [e1, .err "invalid size"], w1)
  else
    let (attr, w2) := get_attribute f handle false w1
    match attr with
    | none => (e0 ++ [e1], w2)
    | some a =>
      match get_handler a with
      | none => (e0 ++ [e1], w2)
      | some h =>
        match h.write with
        | some writeFn => (e0 ++ [e1] ++ writeFn f, w2)
        | none =>
          (e0 ++ [e1, .ub "call through NULL write handler"], w2)

/-- Embedding of `att_write_req` (src/monitor/att.c). -/
def att_write_req (f : L2capFrame) (w : World) : List Event × World :=
  match l2cap_frame_get_le16 f with
  | none => ([.err "invalid size"], w)
  | some (handle, f1) => print_write f1 handle f1.data.length w

/-- Embedding of `att_write_command` (src/monitor/att.c). -/
def att_write_command (f : L2capFrame) (w : World) : List Event × World :=
  match l2cap_frame_get_le16 f with
  | none => ([.err "invalid size"], w)
  | some (handle, f1) => print_write f1 handle f1.data.length w

/-- Embedding of `print_notify` (src/monitor/att.c): print the target, dump `len` bytes of
value — before the `len > frame->size` check, so an oversized `len` reads
past the frame — then resolve the attribute on the response side and run the
notify decoder on a clone truncated to exactly `len` bytes.  Like
`print_write`, `handler->notify` is called without a NULL check. -/
def print_notify (f : L2capFrame) (handle : Nat) (len : Nat) (w : World) :
    List Event × World :=
  let (e0, w1) := print_handle f handle false w
  let e1 : Event := printHexField "  Data" f.data len
  if len > f.data.length then (e0 ++ [e1, .err "invalid size"], w1)
  else
    let (attr, w2) := get_attribute f handle true w1
    match attr with
    | none => (e0 ++ [e1], w2)
    | some a =>
      match get_handler a with
      | none => (e0 ++ [e1], w2)
      | some h =>
        let fv : L2capFrame :=
          if len ≠ f.data.length then { f with data := f.data.take len } else f
        match h.notify with
        | some notifyFn => (e0 ++ [e1] ++ notifyFn fv, w2)
        | none =>
          (e0 ++ [e1, .ub "call through NULL notify handler"], w2)

/-- Embedding of `att_handle_value_notify` (src/monitor/att.c). -/
def att_handle_value_notify (f : L2capFrame) (w : World) :
    List Event × World :=
  match f.data with
  | h0 :: h1 :: rest =>
    let f1 : L2capFrame := { f with data := rest }
    print_notify f1 (leVal [h0, h1]) f1.data.length w
  | _ => ([.ub "read past the frame in att_handle_value_notify"], w)

/-- Embedding of `att_handle_value_ind` (src/monitor/att.c). -/
def att_handle_value_ind (f : L2capFrame) (w : World) : List Event × World :=
  match f.data with
  | h0 :: h1 :: rest =>
    let f1 : L2capFrame := { f with data := rest }
    print_notify f1 (leVal [h0, h1]) f1.data.length w
  | _ => ([.ub "read past the frame in att_handle_value_ind"], w)

/-- The `while (frame->size)` loop of `att_multiple_vl_rsp`
(src/monitor/att.c), recursing on the remaining bytes: read a 2-byte handle
and 2-byte length (a failed header read returns), print the length, decode
that handle's notification bounded to `len`, then `l2cap_frame_pull(f, f,
len)` with the result ignored: when fewer than `len` bytes remain the pull
fails and the cursor is left where it was, so the next iteration reparses
the leftover value bytes as a header.  The in-bounds pull is inlined
(`rest.drop len`) so the recursion is visibly decreasing. -/
def att_multiple_vl_loop (din : Bool) (chan : Nat) :
    List Nat → World → List Event × World
  | h0 :: h1 :: l0 :: l1 :: rest, w =>
    let handle := leVal [h0, h1]
    let len := leVal [l0, l1]
    let f1 : L2capFrame := ⟨din, chan, rest⟩
    let e0 : Event := .field "Length: 0x%4.4x" [len]
    let (nevs, w1) := print_notify f1 handle len w
    if crashed nevs then (e0 :: nevs, w1)
    else if rest.length < len then
      let (evs2, w2) := att_multiple_vl_loop din chan rest w1
      (e0 :: (nevs ++ evs2), w2)
    else
      let (evs2, w2) := att_multiple_vl_loop din chan (rest.drop len) w1
      (e0 :: (nevs ++ evs2), w2)
  | _, w => ([], w)
termination_by bs _ => bs.length
decreasing_by
  all_goals simp only [List.length_cons, List.length_drop]
  all_goals omega

/-- Embedding of `att_multiple_vl_rsp` (src/monitor/att.c). -/
def att_multiple_vl_rsp (f : L2capFrame) (w : World) : List Event × World :=
  att_multiple_vl_loop f.din f.chan f.data w

/-- The handler function names of `att_opcode_table` (src/monitor/att.c).
The dispatch shell `att_packet` identifies which handler it invokes; the
handler bodies are the separately embedded functions above. -/
inductive HandlerId where
  | errorResponse | exchangeMtuReq | exchangeMtuRsp
  | findInfoReq | findInfoRsp | findByTypeValReq | findByTypeValRsp
  | readTypeReq | readTypeRsp | readReq | readRsp | readBlobReq | readBlobRsp
  | readMultipleReq | readGroupTypeReq | readGroupTypeRsp
  | writeReq | writeRsp | prepareWriteReq | prepareWriteRsp
  | executeWriteReq | handleValueNotify | handleValueInd | handleValueConf
  | multipleVlRsp | writeCommand | signedWriteCommand
  deriving Repr, DecidableEq

/-- One entry of `att_opcode_table` (src/monitor/att.c): opcode byte, name,
optional handler, minimum/fixed size, fixed-length flag. -/
structure AttOpcodeData where
  opcode : Nat
  str : String
  func : Option HandlerId
  size : Nat
  fixed : Bool
  deriving Repr, DecidableEq

/-- Embedding of `att_opcode_table` (src/monitor/att.c), sentinel entry dropped.  The two
entries given only an opcode and a name (`0x0f`, `0x19`) have NULL `func`,
size 0 and `fixed = false` from zero initialization. -/
def att_opcode_table : List AttOpcodeData :=
  [⟨0x01, "Error Response", some .errorResponse, 4, true⟩,
   ⟨0x02, "Exchange MTU Request", some .exchangeMtuReq, 2, true⟩,
   ⟨0x03, "Exchange MTU Response", some .exchangeMtuRsp, 2, true⟩,
   ⟨0x04, "Find Information Request", some .findInfoReq, 4, true⟩,
   ⟨0x05, "Find Information Response", some .findInfoRsp, 5, false⟩,
   ⟨0x06, "Find By Type Value Request", some .findByTypeValReq, 6, false⟩,
   ⟨0x07, "Find By Type Value Response", some .findByTypeValRsp, 4, false⟩,
   ⟨0x08, "Read By Type Request", some .readTypeReq, 6, false⟩,
   ⟨0x09, "Read By Type Response", some .readTypeRsp, 3, false⟩,
   ⟨0x0a, "Read Request", some .readReq, 2, true⟩,
   ⟨0x0b, "Read Response", some .readRsp, 0, false⟩,
   ⟨0x0c, "Read Blob Request", some .readBlobReq, 4, true⟩,
   ⟨0x0d, "Read Blob Response", some .readBlobRsp, 0, false⟩,
   ⟨0x0e, "Read Multiple Request", some .readMultipleReq, 4, false⟩,
   ⟨0x0f, "Read Multiple Response", none, 0, false⟩,
   ⟨0x10, "Read By Group Type Request", some .readGroupTypeReq, 6, false⟩,
   ⟨0x11, "Read By Group Type Response", some .readGroupTypeRsp, 4, false⟩,
   ⟨0x12, "Write Request", some .writeReq, 2, false⟩,
   ⟨0x13, "Write Response", some .writeRsp, 0, true⟩,
   ⟨0x16, "Prepare Write Request", some .prepareWriteReq, 4, false⟩,
   ⟨0x17, "Prepare Write Response", some .prepareWriteRsp, 4, false⟩,
   ⟨0x18, "Execute Write Request", some .executeWriteReq, 1, true⟩,
   ⟨0x19, "Execute Write Response", none, 0, false⟩,
   ⟨0x1b, "Handle Value Notification", some .handleValueNotify, 2, false⟩,
   ⟨0x1d, "Handle Value Indication", some .handleValueInd, 2, false⟩,
   ⟨0x1e, "Handle Value Confirmation", some .handleValueConf, 0, true⟩,
   ⟨0x20, "Read Multiple Request Variable Length",
      some .readMultipleReq, 4, false⟩,
   ⟨0x21, "Read Multiple Response Variable Length",
      some .multipleVlRsp, 4, false⟩,
   ⟨0x23, "Handle Multiple Value Notification", some .multipleVlRsp, 4, false⟩,
   ⟨0x52, "Write Command", some .writeCommand, 2, false⟩,
   ⟨0xd2, "Signed Write Command", some .signedWriteCommand, 14, false⟩]

/-- The table scan of `att_packet` / `att_opcode_to_str`
(src/monitor/att.c): first entry with the given opcode byte. -/
def att_opcode_lookup (opcode : Nat) : Option AttOpcodeData :=
  att_opcode_table.find? (fun od => od.opcode == opcode)

/-- What the dispatch shell `att_packet` produced: the events it emitted
itself, the handler invocation it ended in (handler identity and the frame
built over `bytes[1:]`), if any, and the list of indices of the PDU buffer
that `att_packet` itself dereferenced directly (the unconditional
`*((const uint8_t *) data)` at its top reads index 0 before the size
check). -/
structure AttPacketResult where
  events : List Event
  invoked : Option (HandlerId × L2capFrame)
  bufferReads : List Nat
  deriving Repr, DecidableEq

/-- Embedding of `att_packet` (src/monitor/att.c), up to the handler call: the opcode byte
is read first (before the `size < 1` check), a zero-size PDU is reported
malformed, an unknown opcode or one without a handler raw-dumps the payload,
a fixed-length opcode requires `size - 1 == od.size` and a variable one
`size - 1 >= od.size`, failing which an error is printed and the payload
raw-dumped; otherwise the handler is invoked on a frame over the payload.
The PDU buffer holds exactly the `size` declared bytes, so the read of index
0 on an empty PDU is out of the declared bounds. -/
def att_packet (din : Bool) (chan : Nat) (data : List Nat) :
    AttPacketResult :=
  let reads : List Nat := [0]
  let opcode := data.headD 0
  if data.length < 1 then
    { events := [.err "malformed attribute packet", .hexdump data],
      invoked := none, bufferReads := reads }
  else
    match att_opcode_lookup opcode with
    | none =>
      { events := [.attLine opcode "Unknown" (data.length - 1),
                   .hexdump (data.drop 1)],
        invoked := none, bufferReads := reads }
    | some od =>
      let hdr : Event := .attLine opcode od.str (data.length - 1)
      match od.func with
      | none =>
        { events := [hdr, .hexdump (data.drop 1)],
          invoked := none, bufferReads := reads }
      | some fid =>
        if od.fixed then
          if data.length - 1 ≠ od.size then
            { events := [hdr, .err "invalid size", .hexdump (data.drop 1)],
              invoked := none, bufferReads := reads }
          else
            { events := [hdr], invoked := some (fid, ⟨din, chan, data.drop 1⟩),
              bufferReads := reads }
        else
          if data.length - 1 < od.size then
            { events := [hdr, .err "too short packet", .hexdump (data.drop 1)],
              invoked := none, bufferReads := reads }
          else
            { events := [hdr], invoked := some (fid, ⟨din, chan, data.drop 1⟩),
              bufferReads := reads }

/-- The database-selection mapping exactly as claim C4 / spec section 4.4
state it: inbound request uses the local database, inbound response the
remote database, outbound request the remote database, outbound response the
local database. -/
def spec_db_select (d : AttConnData) (din rsp : Bool) : GattDb :=
  match din, rsp with
  | true, false => d.ldb
  | true, true => d.rdb
  | false, false => d.rdb
  | false, true => d.ldb

/-- A length rule of the spec's ATT opcode table (section 6): fixed size,
variable with a minimum, or no body at all. -/
inductive SpecRule where
  | fixedLen (n : Nat)
  | minLen (n : Nat)
  | noBody
  deriving Repr, DecidableEq

/-- The ATT opcode table exactly as the spec lists it (section 6): opcode
byte and length rule. -/
def spec_att_opcode_table : List (Nat × SpecRule) :=
  [(0x01, .fixedLen 4), (0x02, .fixedLen 2), (0x03, .fixedLen 2),
   (0x04, .fixedLen 4), (0x05, .minLen 5), (0x06, .minLen 6),
   (0x07, .minLen 4), (0x08, .minLen 6), (0x09, .minLen 3),
   (0x0a, .fixedLen 2), (0x0b, .minLen 0), (0x0c, .fixedLen 4),
   (0x0d, .minLen 0), (0x0e, .minLen 4), (0x0f, .noBody),
   (0x10, .minLen 6), (0x11, .minLen 4), (0x12, .minLen 2),
   (0x13, .fixedLen 0), (0x16, .minLen 4), (0x17, .minLen 4),
   (0x18, .fixedLen 1), (0x19, .noBody), (0x1b, .minLen 2),
   (0x1d, .minLen 2), (0x1e, .fixedLen 0), (0x20, .minLen 4),
   (0x21, .minLen 4), (0x23, .minLen 4), (0x52, .minLen 2),
   (0xd2, .minLen 14)]

/-- An `att_opcode_table` entry carries a spec length rule when the
fixed-length flag, the size, and the presence of a handler all agree with
it. -/
def ruleAgrees (od : AttOpcodeData) : SpecRule → Bool
  | .fixedLen n => od.fixed && od.size == n && od.func.isSome
  | .minLen n => !od.fixed && od.size == n && od.func.isSome
  | .noBody => od.func.isNone

/-- One opcode byte agrees between `att_opcode_table` and the spec's table:
both absent, or both present with the code entry carrying the spec's length
rule. -/
def opcodeAgrees (op : Nat) : Bool :=
  match spec_att_opcode_table.find? (fun e => e.1 == op),
        att_opcode_lookup op with
  | some e, some od => ruleAgrees od e.2
  | none, none => true
  | _, _ => false

/-- Modelled from claim C6 / spec section 4.6, for comparison with
`att_multiple_vl_loop`: the same per-entry processing, but the shared cursor
is advanced past the declared number of value bytes after every entry and
iteration stops only when the cursor is exhausted or a header read fails. -/
def spec_multiple_vl_loop (din : Bool) (chan : Nat) :
    List Nat → World → List Event × World
  | h0 :: h1 :: l0 :: l1 :: rest, w =>
    let handle := leVal [h0, h1]
    let len := leVal [l0, l1]
    let f1 : L2capFrame := ⟨din, chan, rest⟩
    let e0 : Event := .field "Length: 0x%4.4x" [len]
    let (nevs, w1) := print_notify f1 handle len w
    if crashed nevs then (e0 :: nevs, w1)
    else
      let (evs2, w2) := spec_multiple_vl_loop din chan (rest.drop len) w1
      (e0 :: (nevs ++ evs2), w2)
  | _, w => ([], w)
termination_by bs _ => bs.length
decreasing_by
  all_goals simp only [List.length_cons, List.length_drop]
  all_goals omega

/-- The state of the `print_ase_cmd` per-ASE loop after `k` fully successful
entry decodes starting at entry index `i`: the accumulated events and the
advanced cursor, or `none` when within those `k` steps the frame emptied or
a decode failed. -/
def ase_chain (fn : L2capFrame → List Event × L2capFrame × Bool) :
    Nat → Nat → L2capFrame → Option (List Event × L2capFrame)
  | 0, _, f => some ([], f)
  | k + 1, i, f =>
    if f.data.isEmpty then none
    else
      match fn f with
      | (_, _, false) => none
      | (evs, f1, true) =>
        match ase_chain fn k (i + 1) f1 with
        | none => none
        | some (evs2, f2) =>
          some (Event.field "    ASE: #%u" [i] :: (evs ++ evs2), f2)

/-- C4: `get_attribute` selects the attribute database purely as a function
of the frame's inbound flag and the is-response-side flag, with exactly the
mapping inbound request → local db, inbound response → remote db, outbound
request → remote db, outbound response → local db (the looked-up databases
being the ones left by the lazy load). -/
theorem get_attribute_selects_db_by_direction_and_side
    (f : L2capFrame) (handle : Nat) (rsp : Bool) (w : World)
    (conn : PacketConnData) (d : AttConnData)
    (hconn : w.conn = some conn)
    (hd : (load_gatt_db w conn).data = some d) :
    (get_attribute f handle rsp w).1 =
      gatt_db_get_attribute (spec_db_select d f.din rsp) handle := by
  unfold get_attribute packet_get_conn_data
  rw [hconn]
  dsimp only
  rw [hd]
  cases f.din <;> cases rsp <;> rfl

/-- Witness for C4: an inbound request on a freshly lazy-loaded connection
resolves against the local (persisted) database. -/
theorem get_attribute_selects_db_witness :
    (get_attribute ⟨true, 4, []⟩ 1 false
        ⟨some ⟨none⟩, [⟨1, some 0x2902⟩], []⟩).1 = some ⟨1, some 0x2902⟩ := by
  have h := get_attribute_selects_db_by_direction_and_side
    ⟨true, 4, []⟩ 1 false ⟨some ⟨none⟩, [⟨1, some 0x2902⟩], []⟩
    ⟨none⟩ ⟨[⟨1, some 0x2902⟩], [], []⟩ rfl rfl
  exact h.trans rfl

/-- C5 (code bug): on a zero-length PDU, `att_packet` reports the malformed
packet once and invokes nothing further, but the opcode byte at buffer index
0 has already been dereferenced (line `uint8_t opcode = *((const uint8_t *)
data);` precedes the `size < 1` check), a read outside the declared size
0. -/
theorem att_packet_zero_length_reads_opcode_first :
    att_packet false 4 [] =
      ⟨[.err "malformed attribute packet", .hexdump []], none, [0]⟩ ∧
    0 ∈ (att_packet false 4 []).bufferReads ∧
    (att_packet false 4 []).invoked = none := by
  exact ⟨rfl, by decide, rfl⟩

/-- C10 (code bug): a Read Response on a connection the transport layer
tracks but for which no ATT state exists yet (`conn->data == NULL`) makes
`att_read_rsp` dereference the NULL `data` for `data->reads` right after the
value dump, instead of returning. -/
theorem att_read_rsp_null_data_crash :
    att_read_rsp ⟨false, 4, [1, 2]⟩ ⟨some ⟨none⟩, [], []⟩ =
      ([.hexField "Value" [1, 2],
        .ub "NULL dereference: conn->data in att_read_rsp"],
       ⟨some ⟨none⟩, [], []⟩) ∧
    crashed (att_read_rsp ⟨false, 4, [1, 2]⟩ ⟨some ⟨none⟩, [], []⟩).1 = true := by
  exact ⟨rfl, rfl⟩

/-- C2 (code bug): `ase_cmd_table` has 9 entries (indices 0..8), but the
guard in `ase_get_cmd` is `op > ARRAY_SIZE`, so opcode 9 — equal to the
table size — passes and yields the one-past-the-end reference
`&ase_cmd_table[9]`; `print_ase_cmd` and `print_ase_cp_rsp` then read past
the table instead of printing Reserved.  Only opcodes strictly above the
size are rejected. -/
theorem ase_get_cmd_off_by_one :
    ase_cmd_table.length = 9 ∧
    ase_get_cmd 9 = some 9 ∧
    ase_cmd_table.get? 9 = none ∧
    ase_get_cmd 10 = none ∧
    print_ase_cmd ⟨false, 4, [9, 1, 1]⟩ =
      [.ub "read past the end of ase_cmd_table"] ∧
    Event.field "    Opcode: Reserved (0x%2.2x)" [9] ∉
      print_ase_cmd ⟨false, 4, [9, 1, 1]⟩ ∧
    print_ase_cp_rsp ⟨false, 4, [9, 1, 1]⟩ =
      [.ub "read past the end of ase_cmd_table"] := by
  refine ⟨rfl, rfl, rfl, rfl, rfl, ?_, rfl⟩
  decide

/-- C9 (code bug): `print_write` and `print_notify` fetch the registry entry
and call `handler->write` / `handler->notify` without checking the field for
NULL (unlike `att_read_req`, which checks `!handler || !handler->read`), so
a Write Request to an ASE status characteristic (0x2bc4, write decoder
absent) and a Notification on the CCC descriptor (0x2902, notify decoder
absent) call a NULL function pointer instead of finishing after the raw
dump. -/
theorem null_write_notify_decoder_crash :
    crashed (att_write_req ⟨true, 4, [1, 0, 0xAA]⟩
      ⟨some ⟨some ⟨[⟨1, some 0x2bc4⟩], [⟨2, some 0x2902⟩], []⟩⟩, [], []⟩).1
      = true ∧
    Event.ub "call through NULL write handler" ∈
      (att_write_req ⟨true, 4, [1, 0, 0xAA]⟩
        ⟨some ⟨some ⟨[⟨1, some 0x2bc4⟩], [⟨2, some 0x2902⟩], []⟩⟩, [], []⟩).1 ∧
    crashed (att_handle_value_notify ⟨true, 4, [2, 0, 1]⟩
      ⟨some ⟨some ⟨[⟨1, some 0x2bc4⟩], [⟨2, some 0x2902⟩], []⟩⟩, [], []⟩).1
      = true ∧
    Event.ub "call through NULL notify handler" ∈
      (att_handle_value_notify ⟨true, 4, [2, 0, 1]⟩
        ⟨some ⟨some ⟨[⟨1, some 0x2bc4⟩], [⟨2, some 0x2902⟩], []⟩⟩, [], []⟩).1 := by
  refine ⟨rfl, ?_, rfl, ?_⟩ <;> decide

/-- C6 (code bug): when an entry of a multiple-variable-length response
declares more value bytes than remain (here length 5 with 4 bytes left),
`print_notify` first raw-dumps the declared length — reading one byte past
the frame — and the `l2cap_frame_pull(f, f, len)` whose result
`att_multiple_vl_rsp` ignores fails silently, so the shared cursor is not
advanced past the declared value bytes; the four leftover value bytes are
reparsed as another (handle, length) header (the extra
`Length: 0x%4.4x [0]` event), unlike the spec-modelled loop
`spec_multiple_vl_loop` in which every iteration advances the cursor past
the declared length. -/
theorem multiple_vl_pull_failure_not_advanced :
    (att_multiple_vl_loop false 4 [0, 0, 5, 0, 1, 0, 0, 0] ⟨none, [], []⟩).1 ≠
      (spec_multiple_vl_loop false 4 [0, 0, 5, 0, 1, 0, 0, 0]
        ⟨none, [], []⟩).1 ∧
    Event.oobHexField "  Data" [1, 0, 0, 0] 5 ∈
      (att_multiple_vl_loop false 4 [0, 0, 5, 0, 1, 0, 0, 0] ⟨none, [], []⟩).1 ∧
    Event.field "Length: 0x%4.4x" [0] ∈
      (att_multiple_vl_loop false 4 [0, 0, 5, 0, 1, 0, 0, 0] ⟨none, [], []⟩).1 ∧
    Event.field "Length: 0x%4.4x" [0] ∉
      (spec_multiple_vl_loop false 4 [0, 0, 5, 0, 1, 0, 0, 0]
        ⟨none, [], []⟩).1 := by
  have hcode :
      (att_multiple_vl_loop false 4 [0, 0, 5, 0, 1, 0, 0, 0] ⟨none, [], []⟩).1 =
        [.field "Length: 0x%4.4x" [5], .field "Handle: 0x%4.4x" [0],
         .oobHexField "  Data" [1, 0, 0, 0] 5, .err "invalid size",
         .field "Length: 0x%4.4x" [0], .field "Handle: 0x%4.4x" [1],
         .hexField "  Data" []] := by
    simp [att_multiple_vl_loop, print_notify, print_handle, get_attribute,
          packet_get_conn_data, printHexField, crashed, leVal]
  have hspec :
      (spec_multiple_vl_loop false 4 [0, 0, 5, 0, 1, 0, 0, 0]
          ⟨none, [], []⟩).1 =
        [.field "Length: 0x%4.4x" [5], .field "Handle: 0x%4.4x" [0],
         .oobHexField "  Data" [1, 0, 0, 0] 5, .err "invalid size"] := by
    simp [spec_multiple_vl_loop, print_notify, print_handle, get_attribute,
          packet_get_conn_data, printHexField, crashed, leVal]
  rw [hcode, hspec]
  refine ⟨by decide, by decide, by decide, by decide⟩

/-- C1: for every opcode in the table with a handler, `att_packet` of a
fixed-length opcode with a payload whose length differs from the declared
size emits the invalid-size marker and raw-dumps the payload with the
handler not invoked (and invokes the handler on an exact-length payload);
for a variable-length opcode a payload shorter than the declared minimum is
rejected the same way (marker text `too short packet`) and a payload of at
least the minimum has the handler invoked on the payload frame. -/
theorem att_packet_length_validation
    (op : Nat) (payload : List Nat) (od : AttOpcodeData) (fid : HandlerId)
    (din : Bool) (chan : Nat)
    (hlookup : att_opcode_lookup op = some od)
    (hfunc : od.func = some fid) :
    (od.fixed = true → payload.length ≠ od.size →
      att_packet din chan (op :: payload) =
        ⟨[.attLine op od.str payload.length, .err "invalid size",
          .hexdump payload], none, [0]⟩) ∧
    (od.fixed = true → payload.length = od.size →
      att_packet din chan (op :: payload) =
        ⟨[.attLine op od.str payload.length],
         some (fid, ⟨din, chan, payload⟩), [0]⟩) ∧
    (od.fixed = false → payload.length < od.size →
      att_packet din chan (op :: payload) =
        ⟨[.attLine op od.str payload.length, .err "too short packet",
          .hexdump payload], none, [0]⟩) ∧
    (od.fixed = false → od.size ≤ payload.length →
      att_packet din chan (op :: payload) =
        ⟨[.attLine op od.str payload.length],
         some (fid, ⟨din, chan, payload⟩), [0]⟩) := by
  unfold att_packet
  simp only [List.headD_cons, List.length_cons, Nat.add_sub_cancel,
             List.drop_succ_cons, List.drop_zero, hlookup, hfunc]
  rw [if_neg (by omega)]
  refine ⟨fun hfix hne => ?_, fun hfix heq => ?_,
          fun hfix hlt => ?_, fun hfix hge => ?_⟩ <;> rw [hfix]
  · rw [if_pos rfl, if_pos hne]
  · rw [if_pos rfl, if_neg (by omega)]
  · rw [if_neg (by simp), if_pos hlt]
  · rw [if_neg (by simp), if_neg (by omega)]

/-- Witness for C1: Exchange MTU Request (fixed length 2) with a 1-byte
payload is rejected without invoking the handler, and with its exact 2-byte
payload the handler is invoked. -/
theorem att_packet_length_validation_witness :
    att_packet false 4 [0x02, 0xA0] =
      ⟨[.attLine 0x02 "Exchange MTU Request" 1, .err "invalid size",
        .hexdump [0xA0]], none, [0]⟩ ∧
    att_packet false 4 [0x02, 0xA0, 0x00] =
      ⟨[.attLine 0x02 "Exchange MTU Request" 2],
       some (.exchangeMtuReq, ⟨false, 4, [0xA0, 0x00]⟩), [0]⟩ := by
  have h1 := att_packet_length_validation 0x02 [0xA0]
    ⟨0x02, "Exchange MTU Request", some .exchangeMtuReq, 2, true⟩
    .exchangeMtuReq false 4 rfl rfl
  have h2 := att_packet_length_validation 0x02 [0xA0, 0x00]
    ⟨0x02, "Exchange MTU Request", some .exchangeMtuReq, 2, true⟩
    .exchangeMtuReq false 4 rfl rfl
  exact ⟨h1.1 rfl (by decide), h2.2.1 rfl rfl⟩

set_option maxRecDepth 4096 in
/-- C8: for each of the 256 opcode bytes, `att_opcode_table` agrees with the
spec's table — a listed opcode carries the listed length rule (fixed with
exactly that size, or variable with that minimum) and has a handler exactly
when the spec row has a body — and an unlisted opcode makes `att_packet`
raw-dump the entire payload with no validation and no handler invocation. -/
theorem att_opcode_table_matches_spec :
    (∀ op : Fin 256, opcodeAgrees op.val = true) ∧
    (∀ (op : Nat) (din : Bool) (chan : Nat) (payload : List Nat),
      att_opcode_lookup op = none →
      att_packet din chan (op :: payload) =
        ⟨[.attLine op "Unknown" payload.length, .hexdump payload],
         none, [0]⟩) := by
  constructor
  · decide
  · intro op din chan payload h
    unfold att_packet
    simp only [List.headD_cons, List.length_cons, Nat.add_sub_cancel,
               List.drop_succ_cons, List.drop_zero, h]
    rw [if_neg (by omega)]

/-- Witness for C8: opcode 0x15 is not in the table; its whole payload is
raw-dumped undecoded. -/
theorem att_opcode_table_matches_spec_witness :
    att_packet false 4 [0x15, 7, 8] =
      ⟨[.attLine 0x15 "Unknown" 2, .hexdump [7, 8]], none, [0]⟩ :=
  att_opcode_table_matches_spec.2 0x15 false 4 [7, 8] rfl

/-- Helper: the entry removed by the FIFO scan is exactly the first (oldest)
match. -/
theorem queue_remove_if_fst {α : Type} (q : List α) (p : α → Bool) :
    (queue_remove_if q p).1 = q.find? p := by
  induction q with
  | nil => rfl
  | cons x xs ih =>
    by_cases hx : p x
    · rw [List.find?_cons_of_pos _ hx]
      simp [queue_remove_if, hx]
    · rw [List.find?_cons_of_neg _ hx]
      simp [queue_remove_if, hx, ih]

/-- Helper: with no matching entry the FIFO scan leaves the queue
unchanged. -/
theorem queue_remove_if_of_none {α : Type} (q : List α) (p : α → Bool)
    (h : q.find? p = none) : (queue_remove_if q p).2 = q := by
  induction q with
  | nil => rfl
  | cons x xs ih =>
    by_cases hx : p x
    · rw [List.find?_cons_of_pos _ hx] at h
      exact absurd h (by simp)
    · rw [List.find?_cons_of_neg _ hx] at h
      simp [queue_remove_if, hx, ih h]

/-- Helper: with a matching entry the FIFO scan removes exactly that one
(oldest) entry: queue = prefix of non-matches ++ entry ++ tail, result =
prefix ++ tail. -/
theorem queue_remove_if_of_some {α : Type} (q : List α) (p : α → Bool) (r : α)
    (h : q.find? p = some r) :
    ∃ l1 l2, q = l1 ++ r :: l2 ∧ (∀ x ∈ l1, p x = false) ∧
      (queue_remove_if q p).2 = l1 ++ l2 := by
  induction q with
  | nil => simp [List.find?] at h
  | cons x xs ih =>
    by_cases hx : p x
    · rw [List.find?_cons_of_pos _ hx] at h
      obtain rfl : x = r := by simpa using h
      exact ⟨[], xs, rfl, by simp, by simp [queue_remove_if, hx]⟩
    · rw [List.find?_cons_of_neg _ hx] at h
      obtain ⟨l1, l2, hq, hl1, hrm⟩ := ih h
      refine ⟨x :: l1, l2, by simp [hq], ?_, ?_⟩
      · intro y hy
        rcases List.mem_cons.1 hy with hy | hy
        · subst hy; simpa using hx
        · exact hl1 y hy
      · simp [queue_remove_if, hx, hrm]

/-- C3: a Read Response consumes at most one pending read: the oldest queued
entry in the opposite direction on the same channel (the `match_read_frame`
predicate) is removed — the queue decomposes as non-matching prefix ++ that
entry ++ tail, and only that entry goes — and its read decoder runs on the
response value after the attribute is printed; with no matching entry the
whole state is left unchanged and the value is only raw-dumped. -/
theorem att_read_rsp_consumes_oldest_match
    (f : L2capFrame) (w : World) (conn : PacketConnData) (d : AttConnData)
    (hconn : w.conn = some conn) (hd : conn.data = some d) :
    ((queue_remove_if d.reads (fun r => match_read_frame r f)).1 =
        d.reads.find? (fun r => match_read_frame r f)) ∧
    (d.reads.find? (fun r => match_read_frame r f) = none →
      att_read_rsp f w = ([printHexField "Value" f.data f.data.length], w)) ∧
    (∀ r, d.reads.find? (fun r => match_read_frame r f) = some r →
      (∃ l1 l2, d.reads = l1 ++ r :: l2 ∧
        (∀ x ∈ l1, match_read_frame x f = false) ∧
        (queue_remove_if d.reads (fun x => match_read_frame x f)).2 =
          l1 ++ l2) ∧
      att_read_rsp f w =
        ([printHexField "Value" f.data f.data.length,
          print_attribute r.attr] ++ r.func f,
         ⟨some ⟨some ⟨d.ldb, d.rdb,
            (queue_remove_if d.reads (fun x => match_read_frame x f)).2⟩⟩,
          w.ldisk, w.rdisk⟩)) := by
  refine ⟨queue_remove_if_fst _ _, ?_, ?_⟩
  · intro hnone
    unfold att_read_rsp packet_get_conn_data
    rw [hconn]
    dsimp only
    rw [hd]
    dsimp only
    have ha : (queue_remove_if d.reads fun r => match_read_frame r f) =
        (none, d.reads) := by
      have h1 := queue_remove_if_fst d.reads (fun r => match_read_frame r f)
      have h2 := queue_remove_if_of_none d.reads
        (fun r => match_read_frame r f) hnone
      rw [hnone] at h1
      exact Prod.ext h1 h2
    rw [ha]
  · intro r hr
    refine ⟨queue_remove_if_of_some _ _ _ hr, ?_⟩
    unfold att_read_rsp packet_get_conn_data
    rw [hconn]
    dsimp only
    rw [hd]
    dsimp only
    have h1 := queue_remove_if_fst d.reads (fun r => match_read_frame r f)
    rw [hr] at h1
    rcases hq : queue_remove_if d.reads (fun r => match_read_frame r f) with
      ⟨fst, snd⟩
    rw [hq] at h1
    simp only at h1
    subst h1
    simp only [hq]

/-- Witness for C3, the spec's own example on the real function: two pending
reads queued inbound on channel 1; an outbound response on channel 1
consumes the first (oldest) entry only and runs its decoder, while an
outbound response on channel 2 matches neither and leaves the state
untouched. -/
theorem att_read_rsp_consumes_oldest_match_witness :
    att_read_rsp ⟨false, 1, [9]⟩
      ⟨some ⟨some ⟨[], [],
        [⟨⟨1, some 0x2902⟩, true, 1, fun _ => [.field "r1" []]⟩,
         ⟨⟨2, some 0x2902⟩, true, 1, fun _ => [.field "r2" []]⟩]⟩⟩, [], []⟩ =
      ([.hexField "Value" [9], .attrLine 1 (some 0x2902), .field "r1" []],
       ⟨some ⟨some ⟨[], [],
         [⟨⟨2, some 0x2902⟩, true, 1, fun _ => [.field "r2" []]⟩]⟩⟩, [], []⟩) ∧
    att_read_rsp ⟨false, 2, [9]⟩
      ⟨some ⟨some ⟨[], [],
        [⟨⟨1, some 0x2902⟩, true, 1, fun _ => [.field "r1" []]⟩,
         ⟨⟨2, some 0x2902⟩, true, 1, fun _ => [.field "r2" []]⟩]⟩⟩, [], []⟩ =
      ([.hexField "Value" [9]],
       ⟨some ⟨some ⟨[], [],
        [⟨⟨1, some 0x2902⟩, true, 1, fun _ => [.field "r1" []]⟩,
         ⟨⟨2, some 0x2902⟩, true, 1, fun _ => [.field "r2" []]⟩]⟩⟩, [], []⟩) := by
  constructor
  · have h := (att_read_rsp_consumes_oldest_match ⟨false, 1, [9]⟩
      ⟨some ⟨some ⟨[], [],
        [⟨⟨1, some 0x2902⟩, true, 1, fun _ => [.field "r1" []]⟩,
         ⟨⟨2, some 0x2902⟩, true, 1, fun _ => [.field "r2" []]⟩]⟩⟩, [], []⟩
      ⟨some ⟨[], [],
        [⟨⟨1, some 0x2902⟩, true, 1, fun _ => [.field "r1" []]⟩,
         ⟨⟨2, some 0x2902⟩, true, 1, fun _ => [.field "r2" []]⟩]⟩⟩
      ⟨[], [],
        [⟨⟨1, some 0x2902⟩, true, 1, fun _ => [.field "r1" []]⟩,
         ⟨⟨2, some 0x2902⟩, true, 1, fun _ => [.field "r2" []]⟩]⟩
      rfl rfl).2.2
      ⟨⟨1, some 0x2902⟩, true, 1, fun _ => [.field "r1" []]⟩ rfl
    exact h.2.trans rfl
  · have h := (att_read_rsp_consumes_oldest_match ⟨false, 2, [9]⟩
      ⟨some ⟨some ⟨[], [],
        [⟨⟨1, some 0x2902⟩, true, 1, fun _ => [.field "r1" []]⟩,
         ⟨⟨2, some 0x2902⟩, true, 1, fun _ => [.field "r2" []]⟩]⟩⟩, [], []⟩
      ⟨some ⟨[], [],
        [⟨⟨1, some 0x2902⟩, true, 1, fun _ => [.field "r1" []]⟩,
         ⟨⟨2, some 0x2902⟩, true, 1, fun _ => [.field "r2" []]⟩]⟩⟩
      ⟨[], [],
        [⟨⟨1, some 0x2902⟩, true, 1, fun _ => [.field "r1" []]⟩,
         ⟨⟨2, some 0x2902⟩, true, 1, fun _ => [.field "r2" []]⟩]⟩
      rfl rfl).2.1 rfl
    exact h

/-- C7: in `print_ase_cmd` the count is advisory only.  First conjunct: for
any per-entry decode function, the per-ASE loop runs some `k ≤ count` fully
successful entries (`ase_chain`) and then either stops (count reached or
frame empty, events exactly the `k` complete entry blocks) or entry `k`
fails, in which case the trace is the `k` complete blocks plus entry `k`'s
header and partial events — entries before the failure stay fully decoded
and entries after it are never attempted.  Second conjunct: `print_ase_cmd`
is the opcode and count headers, the loop's events, and a raw dump of
whatever the loop left undecoded. -/
theorem print_ase_cmd_count_advisory :
    (∀ (fn : L2capFrame → List Event × L2capFrame × Bool) (n i : Nat)
       (f : L2capFrame),
      ∃ k, k ≤ n ∧ ∃ evs fk, ase_chain fn k i f = some (evs, fk) ∧
        ((ase_cmd_loop fn n i f = (evs, fk) ∧
            (k = n ∨ fk.data.isEmpty = true)) ∨
         (k < n ∧ fk.data.isEmpty = false ∧
           ∃ evs1 f1, fn fk = (evs1, f1, false) ∧
             ase_cmd_loop fn n i f =
               (evs ++ (Event.field "    ASE: #%u" [i + k] :: evs1), f1)))) ∧
    (∀ (op num : Nat) (bs : List Nat) (din : Bool) (chan : Nat)
       (cmd : AseCmd) (fn : L2capFrame → List Event × L2capFrame × Bool),
      ase_cmd_table.get? op = some cmd → cmd.func = some fn →
      print_ase_cmd ⟨din, chan, op :: num :: bs⟩ =
        [.field "    Opcode: %s (0x%2.2x)" [op],
         .field "    Number of ASE(s): %u" [num]] ++
        (ase_cmd_loop fn num 0 ⟨din, chan, bs⟩).1 ++
        doneDump "  Data" (ase_cmd_loop fn num 0 ⟨din, chan, bs⟩).2) := by
  constructor
  · intro fn n
    induction n with
    | zero =>
      intro i f
      exact ⟨0, le_refl 0, [], f, rfl, Or.inl ⟨rfl, Or.inl rfl⟩⟩
    | succ n ih =>
      intro i f
      by_cases hemp : f.data.isEmpty
      · refine ⟨0, Nat.zero_le _, [], f, rfl, Or.inl ⟨?_, Or.inr hemp⟩⟩
        simp [ase_cmd_loop, hemp]
      · rcases hfn : fn f with ⟨evs1, f1, ok⟩
        cases ok with
        | false =>
          refine ⟨0, Nat.zero_le _, [], f, rfl,
            Or.inr ⟨Nat.succ_pos n, by simpa using hemp, evs1, f1, hfn, ?_⟩⟩
          simp [ase_cmd_loop, hemp, hfn]
        | true =>
          obtain ⟨k, hk, evs2, fk, hchain, hrest⟩ := ih (i + 1) f1
          refine ⟨k + 1, Nat.succ_le_succ hk,
            Event.field "    ASE: #%u" [i] :: (evs1 ++ evs2), fk, ?_, ?_⟩
          · simp [ase_chain, hemp, hfn, hchain]
          · rcases hrest with ⟨hloop, hstop⟩ | ⟨hklt, hne, evs3, f3, hfn3, hloop⟩
            · refine Or.inl ⟨?_, ?_⟩
              · simp [ase_cmd_loop, hemp, hfn, hloop]
              · rcases hstop with h | h
                · left; omega
                · right; exact h
            · refine Or.inr ⟨by omega, hne, evs3, f3, hfn3, ?_⟩
              have hidx : i + 1 + k = i + (k + 1) := by omega
              simp [ase_cmd_loop, hemp, hfn, hloop, hidx]
  · intro op num bs din chan cmd fn hget hfn
    have hlt : op < 9 := by
      have := List.get?_eq_some.1 hget
      simpa using this.1
    unfold print_ase_cmd
    simp only [l2cap_frame_get_u8]
    have hop : ase_get_cmd op = some op := by
      unfold ase_get_cmd
      rw [show ase_cmd_table.length = 9 from rfl, if_neg (by omega)]
    rw [hop]
    dsimp only
    rw [hget]
    dsimp only
    rw [hfn]

/-- Witness for C7: a Release command (opcode 8, per-entry decode is the
1-byte ASE ID) announcing 3 entries over a single byte decodes entry 0 fully
and stops on the exhausted frame; entries 1 and 2 are never attempted and
nothing is left to dump. -/
theorem print_ase_cmd_count_advisory_witness :
    print_ase_cmd ⟨false, 4, [8, 3, 7]⟩ =
      [.field "    Opcode: %s (0x%2.2x)" [8],
       .field "    Number of ASE(s): %u" [3],
       .field "    ASE: #%u" [0], .field "    ASE ID: %u" [7]] := by
  have h := print_ase_cmd_count_advisory.2 8 3 [7] false 4
    ⟨some "Release", some ase_release_cmd⟩ ase_release_cmd rfl rfl
  exact h.trans rfl
